import Mathlib

/-!
Verification of the inventor-ai novelty-assessment pipeline.

This file gives a shallow embedding, in Lean 4, of the pipeline core of the
repository: the aggregator in src/app/api/novelty-check/route.ts, the three
search agents (web, retail, patent), the AI completion gateway
(src/lib/ai/ai-client.ts), the query expander (src/lib/ai/expand-invention.ts),
the search-results cache, and the channel search clients (Tavily and Brave).

Conventions of the embedding:
- JavaScript numbers are modelled as exact rationals; integer timestamps as Nat
  (milliseconds since epoch).  Floating-point rounding is not modelled: the
  properties verified here are about the ideal arithmetic of the source.
- Asynchronous calls to external services (HTTP APIs, language models, the
  database) are modelled by environment records that carry the outcome of each
  such call; thrown JavaScript exceptions are modelled with Except, and
  try/catch blocks by matching on it.  A function that never throws is one
  whose Lean counterpart returns a plain (non-Except) value.
- The free-form metadata bag of a finding is modelled only by the single key
  the verified code actually reads back (the eBay item id); timestamps on
  results are omitted.
-/

/-- JavaScript - String.prototype.includes on lists of characters:
true when the first list occurs contiguously inside the second. -/
def charListHasPfx : List Char → List Char → Bool
  | [], _ => true
  | _ :: _, [] => false
  | a :: as, b :: bs => a == b && charListHasPfx as bs

/-- Helper for substring search: does sub occur in s starting at any position. -/
def charListHasSub (sub : List Char) : List Char → Bool
  | [] => sub.isEmpty
  | c :: rest => charListHasPfx sub (c :: rest) || charListHasSub sub rest

/-- JavaScript s.includes(sub). -/
def strIncludes (s sub : String) : Bool :=
  charListHasSub sub.data s.data

/-- Maximum of a list of rationals with a given starting value; the embedding
of JavaScript Math.max over a spread argument list with an extra argument. -/
def foldMax (init : ℚ) (l : List ℚ) : ℚ :=
  l.foldl max init

theorem le_foldMax_init (init : ℚ) (l : List ℚ) : init ≤ foldMax init l := by
  induction l generalizing init with
  | nil => simp [foldMax]
  | cons x xs ih =>
      have h1 : init ≤ max init x := le_max_left _ _
      have h2 : max init x ≤ foldMax (max init x) xs := ih (max init x)
      simpa [foldMax] using h1.trans h2

theorem le_foldMax_of_mem {x : ℚ} {l : List ℚ} (init : ℚ) (hx : x ∈ l) :
    x ≤ foldMax init l := by
  induction l generalizing init with
  | nil => cases hx
  | cons y ys ih =>
      rcases List.mem_cons.mp hx with h | h
      · subst h
        have h1 : x ≤ max init x := le_max_right _ _
        have h2 : max init x ≤ foldMax (max init x) ys := le_foldMax_init _ _
        simpa [foldMax] using h1.trans h2
      · simpa [foldMax] using ih (max init y) h

theorem foldMax_le {c : ℚ} {l : List ℚ} (init : ℚ) (hinit : init ≤ c)
    (h : ∀ x ∈ l, x ≤ c) : foldMax init l ≤ c := by
  induction l generalizing init with
  | nil => simpa [foldMax] using hinit
  | cons y ys ih =>
      have hy : y ≤ c := h y (List.mem_cons_self _ _)
      have : max init y ≤ c := max_le hinit hy
      simpa [foldMax] using ih (max init y) this (fun x hx => h x (List.mem_cons_of_mem _ hx))

theorem foldMax_zero_cons {x : ℚ} (l : List ℚ) (hx : 0 ≤ x) :
    foldMax 0 (x :: l) = foldMax x l := by
  simp [foldMax, max_eq_right hx]

/-! ## Data model (src/lib/ai/types.ts) -/

/-- GraduatedTruthScores: four independent 0-1 axes attached to every
per-channel result (src/lib/ai/types.ts). -/
structure GraduatedTruthScores where
  objective_truth : ℚ
  practical_truth : ℚ
  completeness : ℚ
  contextual_scope : ℚ
  deriving Repr, DecidableEq

/-- NoveltyFinding (src/lib/ai/types.ts).  Of the free-form metadata bag only
the eBay item id is modelled, since it is the only metadata key the verified
code reads back. -/
structure NoveltyFinding where
  title : String
  description : String
  url : Option String
  similarity_score : ℚ
  source : String
  metadata_item_id : Option String := none
  deriving Repr, DecidableEq

/-- NoveltyResult (src/lib/ai/types.ts); the timestamp field is omitted. -/
structure NoveltyResult where
  agent_type : String
  is_novel : Bool
  confidence : ℚ
  findings : List NoveltyFinding
  summary : String
  truth_scores : GraduatedTruthScores
  search_query_used : String
  deriving Repr, DecidableEq

/-- RiskLevel (src/lib/ai/types.ts). -/
inductive RiskLevel where
  | high_risk
  | moderate_risk
  | low_risk
  | incomplete
  deriving Repr, DecidableEq

/-- NoveltyCheckRequest (src/lib/ai/types.ts). -/
structure NoveltyCheckRequest where
  invention_name : String
  description : String
  problem_statement : Option String := none
  target_audience : Option String := none
  key_features : Option (List String) := none
  deriving Repr, DecidableEq

/-! ## Aggregator (src/app/api/novelty-check/route.ts, POST, lines 54-105) -/

/-- Line 55-57 of the route: an agent failed iff truth_scores.completeness
is exactly 0. -/
def agentFailed (r : NoveltyResult) : Bool :=
  r.truth_scores.completeness == 0

/-- The per-channel score of route.ts lines 62-67: 0.5 for a failed agent,
1 for a novel channel, otherwise 1 - Math.max(...similarities, 0). -/
def channelScore (r : NoveltyResult) : ℚ :=
  if agentFailed r then 1/2
  else if r.is_novel then 1
  else 1 - foldMax 0 (r.findings.map (fun f => f.similarity_score))

/-- Route.ts line 70: weighted average, web 30 percent, retail 30 percent,
patent 40 percent. -/
def overallNoveltyScore (web retail patent : NoveltyResult) : ℚ :=
  channelScore web * (3/10) + channelScore retail * (3/10) + channelScore patent * (2/5)

/-- Route.ts lines 78-80: maximum similarity across a finding list, 0 when the
list is empty (the JavaScript ternary over allFindings.length). -/
def maxSimilarity (fs : List NoveltyFinding) : ℚ :=
  match fs with
  | [] => 0
  | f :: rest => foldMax f.similarity_score (rest.map (fun g => g.similarity_score))

/-- Route.ts lines 86-105: the priority-ordered risk-level derivation. -/
def deriveRiskLevel (web retail patent : NoveltyResult) : RiskLevel :=
  let anyAgentFailed := agentFailed web || agentFailed retail || agentFailed patent
  let allFindings := web.findings ++ retail.findings ++ patent.findings
  let maxSim := maxSimilarity allFindings
  let hasHighConflict := (8/10 : ℚ) ≤ maxSim
  if hasHighConflict then RiskLevel.high_risk
  else if anyAgentFailed && allFindings.isEmpty then RiskLevel.incomplete
  else if anyAgentFailed then
    (if (1/2 : ℚ) ≤ maxSim then RiskLevel.moderate_risk else RiskLevel.incomplete)
  else if (1/2 : ℚ) ≤ maxSim then RiskLevel.moderate_risk
  else RiskLevel.low_risk

theorem mem_le_maxSimilarity {f : NoveltyFinding} {fs : List NoveltyFinding}
    (hf : f ∈ fs) : f.similarity_score ≤ maxSimilarity fs := by
  match fs, hf with
  | g :: rest, hf =>
      rcases List.mem_cons.mp hf with h | h
      · subst h
        exact le_foldMax_init _ _
      · exact le_foldMax_of_mem _ (List.mem_map_of_mem (fun x => x.similarity_score) h)

/-- C1: For every aggregator run, if any finding across the three channel
results has similarity_score at least 0.8, the returned risk_level is
high_risk, regardless of whether any agent failed (completeness equal to 0)
in the other channels. -/
theorem high_conflict_overrides_failure (web retail patent : NoveltyResult)
    (f : NoveltyFinding)
    (hf : f ∈ web.findings ++ retail.findings ++ patent.findings)
    (hsim : (8/10 : ℚ) ≤ f.similarity_score) :
    deriveRiskLevel web retail patent = RiskLevel.high_risk := by
  have hmax : (8/10 : ℚ) ≤ maxSimilarity (web.findings ++ retail.findings ++ patent.findings) :=
    hsim.trans (mem_le_maxSimilarity hf)
  unfold deriveRiskLevel
  simp only [hmax, if_pos]

/-- Concrete aggregator inputs used by witnesses: a channel result. -/
def mkChannelResult (agent : String) (novel : Bool) (conf : ℚ)
    (fs : List NoveltyFinding) (scores : GraduatedTruthScores) : NoveltyResult :=
  { agent_type := agent
    is_novel := novel
    confidence := conf
    findings := fs
    summary := "test"
    truth_scores := scores
    search_query_used := "q" }

/-- All-zero truth scores (the agent-failure sentinel shape). -/
def zeroScores : GraduatedTruthScores :=
  { objective_truth := 0, practical_truth := 0, completeness := 0, contextual_scope := 0 }

/-- A finding with the given similarity score. -/
def mkFinding (sim : ℚ) : NoveltyFinding :=
  { title := "t", description := "d", url := none, similarity_score := sim, source := "s" }

/-- Witness for C1: a retail finding with similarity 0.85 forces high_risk even
when web and patent both carry the completeness-0 failure sentinel. -/
theorem high_conflict_overrides_failure_witness :
    deriveRiskLevel
      (mkChannelResult "web_search" false 0 [] zeroScores)
      (mkChannelResult "retail_search" false (1/2) [mkFinding (17/20)] zeroScores)
      (mkChannelResult "patent_search" false 0 [] zeroScores)
      = RiskLevel.high_risk := by
  apply high_conflict_overrides_failure _ _ _ (mkFinding (17/20))
  · simp [mkChannelResult, mkFinding]
  · norm_num [mkFinding]

/-- C3: the aggregate score is the fixed 0.3/0.3/0.4 blend of the per-channel
scores (0.5 for a failed channel, 1 for a novel one, otherwise one minus the
maximum finding similarity, which is 0 for an empty findings list), and when
every similarity score lies in [0,1] the aggregate lies in [0,1]. -/
theorem overall_score_blend_and_bounds (web retail patent : NoveltyResult)
    (hbounds : ∀ r ∈ [web, retail, patent], ∀ f ∈ r.findings,
      0 ≤ f.similarity_score ∧ f.similarity_score ≤ 1) :
    overallNoveltyScore web retail patent =
      channelScore web * (3/10) + channelScore retail * (3/10) + channelScore patent * (2/5)
    ∧ (∀ r ∈ [web, retail, patent],
        (agentFailed r → channelScore r = 1/2)
        ∧ (¬ agentFailed r → r.is_novel → channelScore r = 1)
        ∧ (r.findings = [] → ¬ agentFailed r → ¬ r.is_novel → channelScore r = 1)
        ∧ (r.findings ≠ [] → ¬ agentFailed r → ¬ r.is_novel →
            channelScore r = 1 - maxSimilarity r.findings)
        ∧ 0 ≤ channelScore r ∧ channelScore r ≤ 1)
    ∧ 0 ≤ overallNoveltyScore web retail patent
    ∧ overallNoveltyScore web retail patent ≤ 1 := by
  have hch : ∀ r ∈ [web, retail, patent],
      (agentFailed r → channelScore r = 1/2)
      ∧ (¬ agentFailed r → r.is_novel → channelScore r = 1)
      ∧ (r.findings = [] → ¬ agentFailed r → ¬ r.is_novel → channelScore r = 1)
      ∧ (r.findings ≠ [] → ¬ agentFailed r → ¬ r.is_novel →
          channelScore r = 1 - maxSimilarity r.findings)
      ∧ 0 ≤ channelScore r ∧ channelScore r ≤ 1 := by
    intro r hr
    have hfd := hbounds r hr
    constructor
    · intro hf
      simp [channelScore, hf]
    constructor
    · intro hnf hn
      simp [channelScore, hnf, hn]
    constructor
    · intro hemp hnf hnn
      simp [channelScore, hnf, hnn, hemp, foldMax]
    constructor
    · intro hne hnf hnn
      match hfs : r.findings, hne with
      | f :: rest, _ =>
          have h0 : (0:ℚ) ≤ f.similarity_score := (hfd f (by rw [hfs]; simp)).1
          simp only [channelScore, hnf, hnn, if_false, hfs, List.map_cons, maxSimilarity]
          rw [foldMax_zero_cons _ h0]
          simp
    constructor
    · unfold channelScore
      split
      · norm_num
      · split
        · norm_num
        · have hle : foldMax 0 (r.findings.map (fun f => f.similarity_score)) ≤ 1 := by
            apply foldMax_le
            · norm_num
            · intro x hx
              rcases List.mem_map.mp hx with ⟨f, hfmem, rfl⟩
              exact (hfd f hfmem).2
          linarith
    · unfold channelScore
      split
      · norm_num
      · split
        · norm_num
        · have hge : (0:ℚ) ≤ foldMax 0 (r.findings.map (fun f => f.similarity_score)) :=
            le_foldMax_init _ _
          linarith
  refine ⟨rfl, hch, ?_, ?_⟩
  · have hw := (hch web (by simp)).2.2.2.2.1
    have hr := (hch retail (by simp)).2.2.2.2.1
    have hp := (hch patent (by simp)).2.2.2.2.1
    unfold overallNoveltyScore
    nlinarith
  · have hw := (hch web (by simp)).2.2.2.2.2
    have hr := (hch retail (by simp)).2.2.2.2.2
    have hp := (hch patent (by simp)).2.2.2.2.2
    have hw0 := (hch web (by simp)).2.2.2.2.1
    have hr0 := (hch retail (by simp)).2.2.2.2.1
    have hp0 := (hch patent (by simp)).2.2.2.2.1
    unfold overallNoveltyScore
    nlinarith

/-- Witness for C3 at concrete channel results: one finding of similarity 0.6
in the web channel, a failed retail channel, a novel patent channel. -/
theorem overall_score_blend_and_bounds_witness :
    overallNoveltyScore
      (mkChannelResult "web_search" false (1/2) [mkFinding (3/5)]
        { objective_truth := 1, practical_truth := 1, completeness := 1, contextual_scope := 1 })
      (mkChannelResult "retail_search" false 0 [] zeroScores)
      (mkChannelResult "patent_search" true (4/5) []
        { objective_truth := 1, practical_truth := 1, completeness := 1, contextual_scope := 1 })
      = (1 - 3/5) * (3/10) + (1/2) * (3/10) + 1 * (2/5)
    ∧ 0 ≤ overallNoveltyScore
      (mkChannelResult "web_search" false (1/2) [mkFinding (3/5)]
        { objective_truth := 1, practical_truth := 1, completeness := 1, contextual_scope := 1 })
      (mkChannelResult "retail_search" false 0 [] zeroScores)
      (mkChannelResult "patent_search" true (4/5) []
        { objective_truth := 1, practical_truth := 1, completeness := 1, contextual_scope := 1 }) := by
  have h := overall_score_blend_and_bounds
    (mkChannelResult "web_search" false (1/2) [mkFinding (3/5)]
      { objective_truth := 1, practical_truth := 1, completeness := 1, contextual_scope := 1 })
    (mkChannelResult "retail_search" false 0 [] zeroScores)
    (mkChannelResult "patent_search" true (4/5) []
      { objective_truth := 1, practical_truth := 1, completeness := 1, contextual_scope := 1 })
    (by
      intro r hr f hf
      simp only [List.mem_cons, List.not_mem_nil, or_false] at hr
      rcases hr with rfl | rfl | rfl
      · simp only [mkChannelResult, List.mem_singleton] at hf
        subst hf
        constructor <;> norm_num [mkFinding]
      · simp [mkChannelResult] at hf
      · simp [mkChannelResult] at hf)
  refine ⟨?_, h.2.2.1⟩
  have := h.1
  rw [this]
  simp only [channelScore, overallNoveltyScore, agentFailed, mkChannelResult, zeroScores,
    mkFinding, foldMax]
  norm_num

/-! ## JavaScript string helpers shared by the query generators -/

/-- Lower-case ASCII letter or digit: the characters kept by the source's
replace of [^a-z0-9\s] with a space after lower-casing. -/
def isLowerAlnum (c : Char) : Bool :=
  (decide ('a' ≤ c) && decide (c ≤ 'z')) || (decide ('0' ≤ c) && decide (c ≤ '9'))

/-- Splits a character list into maximal runs of lower-case alphanumerics;
the embedding of lowercasing, replacing non-alphanumerics by spaces, and
splitting on whitespace (empty fragments are dropped, as the length filters
of the source drop them anyway). -/
def alnumRunsAux : List Char → List Char → List String → List String
  | [], cur, acc => if cur.isEmpty then acc else (String.mk cur.reverse) :: acc
  | c :: rest, cur, acc =>
      if isLowerAlnum c then alnumRunsAux rest (c :: cur) acc
      else alnumRunsAux rest [] (if cur.isEmpty then acc else (String.mk cur.reverse) :: acc)

/-- Tokenize a string as the source's lowercase/strip/split pipeline does. -/
def alnumRuns (s : String) : List String :=
  (alnumRunsAux s.toLower.data [] []).reverse

/-- JavaScript spread of a Set built from a list: unique elements in first
occurrence order. -/
def jsUniqAux (seen : List String) : List String → List String
  | [] => []
  | x :: xs => if seen.contains x then jsUniqAux seen xs else x :: jsUniqAux (x :: seen) xs

/-- Deduplicate, keeping the first occurrence (JavaScript new Set semantics). -/
def jsUniq (l : List String) : List String :=
  jsUniqAux [] l

/-! ## Tavily web-search query generation (src/lib/search/tavily.ts) -/

/-- The stop-word set of extractKeywords in src/lib/search/tavily.ts. -/
def tavilyStopWords : List String :=
  ["a", "an", "the", "is", "are", "was", "were", "be", "been", "being",
   "have", "has", "had", "do", "does", "did", "will", "would", "could",
   "should", "may", "might", "must", "can", "this", "that", "these",
   "those", "i", "you", "he", "she", "it", "we", "they", "what", "which",
   "who", "when", "where", "why", "how", "all", "each", "every", "both",
   "few", "more", "most", "other", "some", "such", "no", "nor", "not",
   "only", "own", "same", "so", "than", "too", "very", "just", "and",
   "but", "if", "or", "because", "as", "until", "while", "of", "at",
   "by", "for", "with", "about", "against", "between", "into", "through",
   "during", "before", "after", "above", "below", "to", "from", "up",
   "down", "in", "out", "on", "off", "over", "under", "again", "further",
   "then", "once", "here", "there", "any", "our", "your", "their", "its",
   "my", "his", "her", "device", "system", "apparatus", "method",
   "invention", "product", "innovative", "new", "novel", "smart",
   "intelligent", "advanced", "automatic", "automated", "using", "uses"]

/-- extractKeywords of src/lib/search/tavily.ts: tokenize, drop tokens of
length at most 2 and stop words, keep the first 5 unique survivors,
space-join. -/
def tavilyExtractKeywords (text : String) : String :=
  let words := (alnumRuns text).filter
    (fun w => decide (2 < w.length) && !(tavilyStopWords.contains w))
  String.intercalate " " ((jsUniq words).take 5)

/-- generateNoveltySearchQueries of src/lib/search/tavily.ts (lines 198-244):
core-name query, problem-solution query, up to 3 feature queries, a
description fallback when fewer than 3 queries were produced, then
deduplicate and cap at 5. -/
def generateNoveltySearchQueries (inventionName description : String)
    (problemStatement : Option String) (keyFeatures : Option (List String)) :
    List String :=
  let queries : List String := []
  let coreTerms := tavilyExtractKeywords inventionName
  let queries := if coreTerms ≠ "" then queries ++ [coreTerms] else queries
  let queries :=
    match problemStatement with
    | some ps =>
        let problemKeywords := tavilyExtractKeywords ps
        if problemKeywords ≠ "" then queries ++ [problemKeywords ++ " solution"] else queries
    | none => queries
  let queries :=
    match keyFeatures with
    | some fs =>
        if 0 < fs.length then
          (fs.take 3).foldl
            (fun qs feature =>
              let featureKeywords := tavilyExtractKeywords feature
              if featureKeywords ≠ "" && decide (3 < featureKeywords.length) then
                qs ++ [featureKeywords]
              else qs)
            queries
        else queries
    | none => queries
  let queries :=
    if queries.length < 3 then
      let descKeywords := tavilyExtractKeywords description
      if descKeywords ≠ "" then queries ++ [descKeywords ++ " product"] else queries
    else queries
  (jsUniq queries).take 5

/-! ## Web search agent (src/lib/ai/web-search-agent.ts)

The Tavily HTTP calls and the model-analysis call are external; their
outcomes are carried by WebAgentEnv.  The agent body is one try/catch: a
thrown analysis error is modelled by the Except.error branch. -/

/-- One Tavily search result (src/lib/search/tavily.ts). -/
structure TavilySearchResult where
  title : String
  description : String
  url : String
  score : ℚ
  age : Option String := none
  deriving Repr, DecidableEq

/-- TavilySearchResponse of src/lib/search/tavily.ts, also the aggregated
shape returned by runMultipleSearches. -/
structure TavilyMultiResponse where
  query : String
  results : List TavilySearchResult
  total_results : Option Nat := none
  error : Option String := none
  deriving Repr, DecidableEq

/-- Per-result analysis entry returned by the model (web-search-agent.ts). -/
structure AnalyzedFinding where
  result_index : Nat
  similarity_score : ℚ
  relevance_explanation : String
  deriving Repr, DecidableEq

/-- ClaudeAnalysisResult of web-search-agent.ts. -/
structure ClaudeAnalysisResult where
  is_novel : Bool
  confidence : ℚ
  analyzed_findings : List AnalyzedFinding
  summary : String
  truth_scores : GraduatedTruthScores
  deriving Repr, DecidableEq

/-- External-call outcomes of one web-agent run. -/
structure WebAgentEnv where
  searchOutcome : TavilyMultiResponse
  analysisOutcome : Except String ClaudeAnalysisResult
  deriving Repr

/-- runWebSearchAgent of src/lib/ai/web-search-agent.ts. -/
def runWebSearchAgent (env : WebAgentEnv) (request : NoveltyCheckRequest)
    (preGeneratedQueries : Option (List String)) : NoveltyResult :=
  let searchQueries :=
    match preGeneratedQueries with
    | some qs =>
        if 0 < qs.length then qs
        else generateNoveltySearchQueries request.invention_name request.description
          request.problem_statement request.key_features
    | none => generateNoveltySearchQueries request.invention_name request.description
        request.problem_statement request.key_features
  let searchResponse := env.searchOutcome
  if searchResponse.error.isSome && searchResponse.results.isEmpty then
    { agent_type := "web_search", is_novel := false, confidence := 0, findings := [],
      summary := "Search failed: " ++ searchResponse.error.getD "",
      truth_scores := zeroScores,
      search_query_used := searchQueries.headD "" }
  else if searchResponse.results.isEmpty then
    { agent_type := "web_search", is_novel := true, confidence := 3/5, findings := [],
      summary := "No similar products found in web search. This suggests the invention may be novel, but further research (retail and patent searches) is recommended.",
      truth_scores :=
        { objective_truth := 7/10, practical_truth := 3/5,
          completeness := 2/5, contextual_scope := 1/2 },
      search_query_used := String.intercalate " | " searchQueries }
  else
    match env.analysisOutcome with
    | .error msg =>
        { agent_type := "web_search", is_novel := false, confidence := 0, findings := [],
          summary := "Error during web search analysis: " ++ msg,
          truth_scores := zeroScores,
          search_query_used := request.invention_name }
    | .ok a =>
        let findings := searchResponse.results.enum.map
          (fun p =>
            let analysis := a.analyzed_findings.find? (fun f => f.result_index == p.1)
            { title := p.2.title
              description := p.2.description
              url := some p.2.url
              similarity_score := (analysis.map (fun x => x.similarity_score)).getD (3/10)
              source := "Tavily Search"
              metadata_item_id := none : NoveltyFinding })
        let sorted := findings.mergeSort
          (fun x y => decide (y.similarity_score ≤ x.similarity_score))
        { agent_type := "web_search", is_novel := a.is_novel, confidence := a.confidence,
          findings := sorted.take 10, summary := a.summary, truth_scores := a.truth_scores,
          search_query_used := String.intercalate " | " searchQueries }

/-! ## Retail search agent (src/lib/ai/retail-search-agent.ts, eBay two-phase
version)

The eBay client (src/lib/search/ebay.ts) is outside the snapshot; per its
result type it returns a structured outcome rather than throwing, carried
here by EbaySearchOutcome.  The model-analysis call sits in its own
try/catch inside the agent. -/

/-- The eBay product fields read by the agent (price, seller, image and
location only feed the unmodelled metadata bag). -/
structure EbayProduct where
  itemId : String
  title : String
  condition : Option String := none
  itemWebUrl : String
  deriving Repr, DecidableEq

/-- Outcome of searchSimilarProducts from src/lib/search/ebay.ts. -/
structure EbaySearchOutcome where
  success : Bool
  products : List EbayProduct
  error : String := ""
  searchQuery : String
  deriving Repr, DecidableEq

/-- One product analysis entry of the model's JSON (retail agent). -/
structure RetailProductAnalysis where
  item_id : String
  similarity_score : ℚ
  analysis : String
  deriving Repr, DecidableEq

/-- The model's JSON shape for the retail agent's analysis phase. -/
structure RetailAnalysisResult where
  is_novel : Bool
  confidence : ℚ
  product_analyses : List RetailProductAnalysis
  summary : String
  truth_scores : GraduatedTruthScores
  deriving Repr, DecidableEq

/-- External-call outcomes of one retail-agent run. -/
structure RetailAgentEnv where
  ebayConfigured : Bool
  ebayOutcome : EbaySearchOutcome
  analysisOutcome : Except String RetailAnalysisResult
  deriving Repr

/-- ebayProductToFinding of retail-search-agent.ts. -/
def ebayProductToFinding (p : EbayProduct) : NoveltyFinding :=
  { title := p.title
    description := (p.condition.getD "New") ++ " - " ++ p.title
    url := some p.itemWebUrl
    similarity_score := 0
    source := "eBay"
    metadata_item_id := some p.itemId }

/-- JavaScript Map built from entries then queried: the last entry with the
queried key wins, none when absent. -/
def jsMapGet (entries : List RetailProductAnalysis) (key : String) :
    Option RetailProductAnalysis :=
  entries.reverse.find? (fun pa => pa.item_id == key)

/-- runRetailSearchAgent of src/lib/ai/retail-search-agent.ts. -/
def runRetailSearchAgent (env : RetailAgentEnv) (_request : NoveltyCheckRequest) :
    NoveltyResult :=
  if !env.ebayConfigured then
    { agent_type := "retail_search", is_novel := true, confidence := 3/10, findings := [],
      summary := "Retail search skipped: eBay API not configured. To enable retail product search, add EBAY_CLIENT_ID and EBAY_CLIENT_SECRET environment variables. Visit https://developer.ebay.com/my/keys to get API keys.",
      truth_scores := zeroScores,
      search_query_used := "N/A - eBay not configured" }
  else if !env.ebayOutcome.success then
    { agent_type := "retail_search", is_novel := false, confidence := 0, findings := [],
      summary := "eBay API error: " ++ env.ebayOutcome.error,
      truth_scores := zeroScores,
      search_query_used := env.ebayOutcome.searchQuery }
  else if env.ebayOutcome.products.isEmpty then
    { agent_type := "retail_search", is_novel := true, confidence := 7/10, findings := [],
      summary := "No similar products found on eBay for \"" ++ env.ebayOutcome.searchQuery ++ "\". This suggests the invention may be novel in the retail marketplace, though further research on other platforms is recommended.",
      truth_scores :=
        { objective_truth := 4/5, practical_truth := 7/10,
          completeness := 1/2, contextual_scope := 4/5 },
      search_query_used := env.ebayOutcome.searchQuery }
  else
    let findings := env.ebayOutcome.products.map ebayProductToFinding
    match env.analysisOutcome with
    | .error _ =>
        { agent_type := "retail_search", is_novel := false, confidence := 3/10,
          findings := findings,
          summary := "Found " ++ toString findings.length ++ " potentially similar products on eBay, but analysis failed. Manual review recommended.",
          truth_scores :=
            { objective_truth := 3/5, practical_truth := 1/2,
              completeness := 2/5, contextual_scope := 1/2 },
          search_query_used := env.ebayOutcome.searchQuery }
    | .ok a =>
        let updatedFindings := findings.map (fun f =>
          match f.metadata_item_id with
          | none => f
          | some key =>
              match jsMapGet a.product_analyses key with
              | none => f
              | some pa =>
                  { f with
                      similarity_score := pa.similarity_score
                      description := if pa.analysis == "" then f.description else pa.analysis })
        let sorted := updatedFindings.mergeSort
          (fun x y => decide (y.similarity_score ≤ x.similarity_score))
        { agent_type := "retail_search", is_novel := a.is_novel, confidence := a.confidence,
          findings := sorted, summary := a.summary, truth_scores := a.truth_scores,
          search_query_used := env.ebayOutcome.searchQuery }

/-! ## Patent search agent (src/lib/ai/patent-search-agent.ts)

The PatentsView query set is produced by an AI call
(generatePatentSearchQueries in src/lib/search/uspto.ts) and the search
itself runs behind withRetry; both outcomes are carried by PatentAgentEnv.
The PTAB supplementary search is disabled in the source (commented out), so
hasPTABData is always false along the real code path but is kept in the
embedding because the downstream score table branches on it. -/

/-- PatentQuerySet of src/lib/search/uspto.ts. -/
structure PatentQuerySet where
  functionQueries : List String
  problemQueries : List String
  mechanismQueries : List String
  synonymQueries : List String
  allQueries : List String
  deriving Repr, DecidableEq

/-- PatentReference of src/lib/search/uspto.ts. -/
structure PatentReference where
  patentNumber : String
  title : String
  filingDate : String
  status : String
  source : String
  trialType : Option String := none
  url : String
  relevanceContext : Option String := none
  abstract : Option String := none
  assignee : Option String := none
  isChallenged : Option Bool := none
  deriving Repr, DecidableEq

/-- One analyzed patent of the model's JSON (patent agent). -/
structure PatentAnalysis where
  patent_number : String
  title : String
  similarity_score : ℚ
  threat_level : String
  analysis : String
  deriving Repr, DecidableEq

/-- AnalysisResult of patent-search-agent.ts. -/
structure PatentAnalysisResult where
  is_novel : Bool
  confidence : ℚ
  analyzed_patents : List PatentAnalysis
  summary : String
  patentability_assessment : String
  key_differentiators : List String
  recommendations : List String
  search_coverage_notes : String
  deriving Repr, DecidableEq

/-- Data carried by a successful PatentsView search (patents plus per-query
errors), the payload of searchPatentsViewWithQueries inside withRetry. -/
structure PVData where
  patents : List PatentReference
  errors : List String
  deriving Repr, DecidableEq

/-- External-call outcomes of one patent-agent run. -/
structure PatentAgentEnv where
  querySet : PatentQuerySet
  pvOutcome : Except String PVData
  analysisOutcome : Except String PatentAnalysisResult
  deriving Repr

/-- The record returned by fetchPatents in patent-search-agent.ts. -/
structure FetchPatentsResult where
  patents : List PatentReference
  querySet : PatentQuerySet
  errors : List String
  hasPatentsViewData : Bool
  hasPTABData : Bool
  deriving Repr, DecidableEq

/-- fetchPatents of patent-search-agent.ts (lines 133-233): on a failed
retry the error message is recorded unless it names the missing
PATENTSVIEW_API_KEY, in which case it is only logged; hasPatentsViewData is
true exactly when at least one patent came back. -/
def fetchPatents (env : PatentAgentEnv) : FetchPatentsResult :=
  match env.pvOutcome with
  | .ok d =>
      { patents := d.patents, querySet := env.querySet, errors := d.errors,
        hasPatentsViewData := decide (0 < d.patents.length), hasPTABData := false }
  | .error msg =>
      { patents := [], querySet := env.querySet,
        errors := if !strIncludes msg "PATENTSVIEW_API_KEY" then ["PatentsView: " ++ msg] else [],
        hasPatentsViewData := false, hasPTABData := false }

/-- patentReferenceToFinding of patent-search-agent.ts. -/
def patentReferenceToFinding (patent : PatentReference)
    (analysis : Option PatentAnalysis) : NoveltyFinding :=
  let sourceName :=
    if patent.source == "USPTO_PATENTSVIEW" then
      (if patent.isChallenged.getD false then "USPTO (Challenged)" else "USPTO Patents")
    else if patent.source == "USPTO_APPEALS" then "USPTO Appeals"
    else "USPTO PTAB"
  let d0 := match analysis with
    | some a => a.analysis
    | none => ""
  let d0 := if d0 == "" then patent.relevanceContext.getD "" else d0
  let d1 :=
    if d0 == "" then
      match patent.abstract with
      | some ab =>
          if ab ≠ "" then
            (if 200 < ab.length then (String.mk (ab.data.take 200)) ++ "..." else ab)
          else ""
      | none => ""
    else d0
  let d2 :=
    if d1 == "" then
      (if patent.source == "USPTO_PATENTSVIEW" then "Granted patent from USPTO database"
       else "Patent found in USPTO PTAB database")
    else d1
  { title := patent.title ++ " (" ++ patent.patentNumber ++ ")"
    description := d2
    url := some patent.url
    similarity_score := (analysis.map (fun a => a.similarity_score)).getD (1/2)
    source := sourceName
    metadata_item_id := none }

/-- buildSummary of patent-search-agent.ts (lines 455-524).  Note that the
branch announcing a completed comprehensive search with zero matches
(hasPatentsViewData true, patentCount zero) is unreachable along the real
code path, because hasPatentsViewData is defined as patents.length greater
than zero. -/
def buildSummary (analysis : PatentAnalysisResult) (patentCount : Nat)
    (errors : List String) (querySet : PatentQuerySet)
    (hasPatentsViewData hasPTABData : Bool) : String :=
  let parts := [analysis.summary]
  let parts := parts ++
    (if 0 < patentCount then
      let sources :=
        (if hasPatentsViewData then ["USPTO PatentsView (all granted patents)"] else []) ++
        (if hasPTABData then ["USPTO PTAB (challenged patents)"] else [])
      ["\n\nBased on " ++ toString patentCount ++ " real patents from " ++
        String.intercalate " + " sources ++ "."]
    else if hasPatentsViewData then
      ["\n\nNo matching patents found in USPTO database (comprehensive search completed)."]
    else if hasPTABData then
      ["\n\nNo matching patents found in USPTO PTAB (challenged patents only - limited coverage)."]
    else ["\n\nNo patent data retrieved."])
  let parts := parts ++
    (if 0 < querySet.allQueries.length then
      let queryTypes :=
        (if 0 < querySet.functionQueries.length then ["function-based"] else []) ++
        (if 0 < querySet.problemQueries.length then ["problem-based"] else []) ++
        (if 0 < querySet.mechanismQueries.length then ["mechanism"] else []) ++
        (if 0 < querySet.synonymQueries.length then ["synonym-expanded"] else [])
      ["\n\nSearch strategy: " ++ toString querySet.allQueries.length ++
        " AI-generated queries (" ++ String.intercalate ", " queryTypes ++ ")."]
    else [])
  let parts := parts ++
    (if analysis.patentability_assessment ≠ "" then
      ["\n\nPatentability: " ++ analysis.patentability_assessment]
    else [])
  let parts := parts ++
    (if 0 < analysis.key_differentiators.length then
      ["\n\nKey differentiators: " ++ String.intercalate "; " analysis.key_differentiators]
    else [])
  let parts := parts ++
    (if analysis.search_coverage_notes ≠ "" then
      ["\n\nNote: " ++ analysis.search_coverage_notes]
    else [])
  let parts := parts ++
    (if 0 < errors.length then
      let displayErrors := errors.filter (fun e => !strIncludes e "API_KEY")
      if 0 < displayErrors.length then
        ["\n\nSearch warnings: " ++ String.intercalate "; " displayErrors]
      else []
    else [])
  let parts := parts ++
    (if hasPatentsViewData then
      ["\n\nNOTE: This search covers granted US patents via PatentsView. A professional patent search is still recommended before filing."]
    else if hasPTABData then
      ["\n\nIMPORTANT: This search only covers USPTO PTAB (challenged patents, <5% of all patents). For comprehensive coverage, configure PATENTSVIEW_API_KEY or consult a patent attorney."]
    else [])
  String.intercalate "" parts

/-- runPatentSearchAgent of src/lib/ai/patent-search-agent.ts (lines
320-450).  The body sits in one try/catch; a thrown analysis error is the
Except.error branch of the environment. -/
def runPatentSearchAgent (env : PatentAgentEnv) (request : NoveltyCheckRequest) :
    NoveltyResult :=
  let f := fetchPatents env
  let patentsViewKeyMissing := f.errors.any (fun e => strIncludes e "PATENTSVIEW_API_KEY")
  if patentsViewKeyMissing then
    { agent_type := "patent_search", is_novel := false, confidence := 0, findings := [],
      summary := "PATENTSVIEW_API_KEY not configured. Please add it to your environment variables.",
      truth_scores := zeroScores,
      search_query_used := String.intercalate "; " f.querySet.allQueries }
  else
    let apiErrors := f.errors.filter (fun e =>
      strIncludes e "500" || strIncludes e "Internal Server Error" ||
      strIncludes e "400" || strIncludes e "error" || strIncludes e "failed")
    let allApisErrored := !f.hasPatentsViewData && decide (0 < apiErrors.length)
    if allApisErrored then
      { agent_type := "patent_search", is_novel := false, confidence := 0, findings := [],
        summary := "Patent search encountered errors (" ++ toString apiErrors.length ++
          " requests failed). Unable to complete patent search. Please try again later or consult a patent attorney.",
        truth_scores :=
          { objective_truth := 0, practical_truth := 1/5,
            completeness := 0, contextual_scope := 0 },
        search_query_used := String.intercalate "; " f.querySet.allQueries }
    else
      match env.analysisOutcome with
      | .error msg =>
          { agent_type := "patent_search", is_novel := false, confidence := 0, findings := [],
            summary := "Error during patent search: " ++ msg ++ ". Professional patent search recommended.",
            truth_scores := zeroScores,
            search_query_used := request.invention_name }
      | .ok analysis =>
          let findings := f.patents.map (fun patent =>
            patentReferenceToFinding patent
              (analysis.analyzed_patents.find? (fun ap => ap.patent_number == patent.patentNumber)))
          let sorted := findings.mergeSort
            (fun x y => decide (y.similarity_score ≤ x.similarity_score))
          let queryDiversity : ℚ :=
            (if 0 < f.querySet.functionQueries.length then (1/4 : ℚ) else 0) +
            (if 0 < f.querySet.problemQueries.length then (1/4 : ℚ) else 0) +
            (if 0 < f.querySet.mechanismQueries.length then (1/4 : ℚ) else 0) +
            (if 0 < f.querySet.synonymQueries.length then (1/4 : ℚ) else 0)
          let errorRate : ℚ :=
            (f.errors.length : ℚ) / ((max (f.querySet.allQueries.length * 2) 1 : ℕ) : ℚ)
          let errorPenalty : ℚ := if 0 < errorRate then 1 - errorRate * (3/10) else 1
          let truthScores : GraduatedTruthScores :=
            { objective_truth :=
                if f.hasPatentsViewData then (95/100) * errorPenalty
                else if f.hasPTABData then (3/5) * errorPenalty else 0
              practical_truth :=
                if f.hasPatentsViewData then (9/10) * errorPenalty
                else if f.hasPTABData then (1/2) * errorPenalty else 0
              completeness :=
                if f.hasPatentsViewData then (85/100) * errorPenalty
                else if f.hasPTABData then (1/4) * errorPenalty else 0
              contextual_scope :=
                if f.hasPatentsViewData then (9/10) * queryDiversity * errorPenalty
                else if f.hasPTABData then (2/5) * queryDiversity * errorPenalty else 0 }
          { agent_type := "patent_search", is_novel := analysis.is_novel,
            confidence := analysis.confidence * errorPenalty,
            findings := sorted.take 10,
            summary := buildSummary analysis f.patents.length f.errors f.querySet
              f.hasPatentsViewData f.hasPTABData,
            truth_scores := truthScores,
            search_query_used := String.intercalate "; " f.querySet.allQueries }

/-! ## Concrete fixtures for the agent-level claims -/

/-- A one-query PatentsView query set. -/
def c2QuerySet : PatentQuerySet :=
  { functionQueries := ["puzzle toy apparatus"], problemQueries := [],
    mechanismQueries := [], synonymQueries := [],
    allQueries := ["puzzle toy apparatus"] }

/-- A concrete request. -/
def c2Request : NoveltyCheckRequest :=
  { invention_name := "Unique Puzzle Toy", description := "A puzzle toy" }

/-- A successful model analysis for a patent run that found nothing. -/
def c2PatentAnalysis : PatentAnalysisResult :=
  { is_novel := true, confidence := 4/5, analyzed_patents := [],
    summary := "No matching patents were found.", patentability_assessment := "",
    key_differentiators := [], recommendations := [], search_coverage_notes := "" }

/-- Patent-agent environment: PatentsView configured, the search succeeds
with zero patents and zero per-query errors, the analysis succeeds. -/
def c2PatentEnv : PatentAgentEnv :=
  { querySet := c2QuerySet,
    pvOutcome := .ok { patents := [], errors := [] },
    analysisOutcome := .ok c2PatentAnalysis }

/-- Web-agent environment: the search succeeds with zero results. -/
def c2WebEnv : WebAgentEnv :=
  { searchOutcome := { query := "puzzle toy", results := [], error := none },
    analysisOutcome := .error "not reached" }

/-- Retail-agent environment: eBay configured, the search succeeds with zero
products. -/
def c2RetailEnv : RetailAgentEnv :=
  { ebayConfigured := true,
    ebayOutcome := { success := true, products := [], error := "", searchQuery := "puzzle toy" },
    analysisOutcome := .error "not reached" }

/-- C2: the code contradicts the claim.  A patent-channel search that runs
with PatentsView configured, succeeds, and returns zero patents yields
truth_scores.completeness equal to 0 (because hasPatentsViewData is defined
as patents.length greater than 0), so the aggregator counts the patent
channel as failed; with the web and retail channels succeeding on zero
findings the run is classified incomplete instead of low_risk. -/
theorem patent_zero_findings_completeness_bug :
    (runPatentSearchAgent c2PatentEnv c2Request).truth_scores.completeness = 0
    ∧ (runPatentSearchAgent c2PatentEnv c2Request).findings = []
    ∧ agentFailed (runWebSearchAgent c2WebEnv c2Request (some ["puzzle toy"])) = false
    ∧ agentFailed (runRetailSearchAgent c2RetailEnv c2Request) = false
    ∧ deriveRiskLevel (runWebSearchAgent c2WebEnv c2Request (some ["puzzle toy"]))
        (runRetailSearchAgent c2RetailEnv c2Request)
        (runPatentSearchAgent c2PatentEnv c2Request) = RiskLevel.incomplete := by
  have hpat : runPatentSearchAgent c2PatentEnv c2Request =
      { agent_type := "patent_search", is_novel := true, confidence := 4/5 * 1,
        findings := [],
        summary := buildSummary c2PatentAnalysis 0 [] c2QuerySet false false,
        truth_scores := { objective_truth := 0, practical_truth := 0,
                          completeness := 0, contextual_scope := 0 },
        search_query_used := String.intercalate "; " ["puzzle toy apparatus"] } := by
    simp [runPatentSearchAgent, fetchPatents, c2PatentEnv, c2QuerySet, c2PatentAnalysis]
  have hweb : runWebSearchAgent c2WebEnv c2Request (some ["puzzle toy"]) =
      { agent_type := "web_search", is_novel := true, confidence := 3/5, findings := [],
        summary := "No similar products found in web search. This suggests the invention may be novel, but further research (retail and patent searches) is recommended.",
        truth_scores := { objective_truth := 7/10, practical_truth := 3/5,
                          completeness := 2/5, contextual_scope := 1/2 },
        search_query_used := String.intercalate " | " ["puzzle toy"] } := by
    simp [runWebSearchAgent, c2WebEnv]
  have hret : runRetailSearchAgent c2RetailEnv c2Request =
      { agent_type := "retail_search", is_novel := true, confidence := 7/10, findings := [],
        summary := "No similar products found on eBay for \"puzzle toy\". This suggests the invention may be novel in the retail marketplace, though further research on other platforms is recommended.",
        truth_scores := { objective_truth := 4/5, practical_truth := 7/10,
                          completeness := 1/2, contextual_scope := 4/5 },
        search_query_used := "puzzle toy" } := by
    simp [runRetailSearchAgent, c2RetailEnv]
  refine ⟨by rw [hpat], by rw [hpat], ?_, ?_, ?_⟩
  · rw [hweb]
    simp [agentFailed]
  · rw [hret]
    simp [agentFailed]
  · rw [hweb, hret, hpat]
    simp [deriveRiskLevel, agentFailed, maxSimilarity]

/-- mergeSort of the empty list is empty (via its permutation property). -/
theorem mergeSort_nil {α : Type} (le : α → α → Bool) :
    ([] : List α).mergeSort le = [] :=
  List.Perm.eq_nil (List.mergeSort_perm [] le)

/-- Patent-agent environment in which the channel client fails with a
retryable server error. -/
def c4PatentEnv : PatentAgentEnv :=
  { querySet := c2QuerySet,
    pvOutcome := .error "HTTP 500: Internal Server Error",
    analysisOutcome := .error "not reached" }

/-- C4 as stated is false: on the patent agent's channel-API-error path the
returned result has empty findings and completeness 0, but practical_truth
is 0.2, so not all four truth scores are 0. -/
theorem agent_failure_all_zero_counterexample :
    (runPatentSearchAgent c4PatentEnv c2Request).findings = []
    ∧ (runPatentSearchAgent c4PatentEnv c2Request).truth_scores.completeness = 0
    ∧ (runPatentSearchAgent c4PatentEnv c2Request).truth_scores.practical_truth ≠ 0 := by
  have h1 : strIncludes "HTTP 500: Internal Server Error" "PATENTSVIEW_API_KEY" = false := by rfl
  have h2 : strIncludes "PatentsView: HTTP 500: Internal Server Error" "PATENTSVIEW_API_KEY" = false := by rfl
  have h3 : strIncludes "PatentsView: HTTP 500: Internal Server Error" "500" = true := by rfl
  have hpat : runPatentSearchAgent c4PatentEnv c2Request =
      { agent_type := "patent_search", is_novel := false, confidence := 0, findings := [],
        summary := "Patent search encountered errors (" ++ toString (1 : ℕ) ++
          " requests failed). Unable to complete patent search. Please try again later or consult a patent attorney.",
        truth_scores := { objective_truth := 0, practical_truth := 1/5,
                          completeness := 0, contextual_scope := 0 },
        search_query_used := String.intercalate "; " ["puzzle toy apparatus"] } := by
    simp [runPatentSearchAgent, fetchPatents, c4PatentEnv, c2QuerySet, h1, h2, h3]
  rw [hpat]
  refine ⟨rfl, rfl, by norm_num⟩

/-- C4 amended: every embedded agent is a total function (it returns a
NoveltyResult for every environment; thrown exceptions only exist inside the
environments, so the aggregator never receives one), and on every failure of
its channel client it returns empty findings with completeness explicitly 0
and a summary naming the cause.  The web and retail agents also zero all
four truth scores on those paths; the patent agent zeroes objective_truth,
completeness and contextual_scope on every channel-failure path but sets
practical_truth to 0.2 on its API-error path (and to 0 on the others). -/
theorem agents_failure_sentinel :
    (∀ (env : WebAgentEnv) (req : NoveltyCheckRequest) (pre : Option (List String)) (msg : String),
      env.searchOutcome.error = some msg → env.searchOutcome.results = [] →
        (runWebSearchAgent env req pre).findings = []
        ∧ (runWebSearchAgent env req pre).truth_scores = zeroScores
        ∧ (runWebSearchAgent env req pre).summary = "Search failed: " ++ msg)
    ∧ (∀ (env : WebAgentEnv) (req : NoveltyCheckRequest) (pre : Option (List String)) (msg : String),
      env.searchOutcome.results ≠ [] → env.analysisOutcome = .error msg →
        (runWebSearchAgent env req pre).findings = []
        ∧ (runWebSearchAgent env req pre).truth_scores = zeroScores
        ∧ (runWebSearchAgent env req pre).summary = "Error during web search analysis: " ++ msg)
    ∧ (∀ (env : RetailAgentEnv) (req : NoveltyCheckRequest),
      env.ebayConfigured = false →
        (runRetailSearchAgent env req).findings = []
        ∧ (runRetailSearchAgent env req).truth_scores = zeroScores)
    ∧ (∀ (env : RetailAgentEnv) (req : NoveltyCheckRequest),
      env.ebayConfigured = true → env.ebayOutcome.success = false →
        (runRetailSearchAgent env req).findings = []
        ∧ (runRetailSearchAgent env req).truth_scores = zeroScores
        ∧ (runRetailSearchAgent env req).summary = "eBay API error: " ++ env.ebayOutcome.error)
    ∧ (∀ (env : PatentAgentEnv) (req : NoveltyCheckRequest) (msg : String),
      env.pvOutcome = .error msg →
        (runPatentSearchAgent env req).findings = []
        ∧ (runPatentSearchAgent env req).truth_scores.completeness = 0
        ∧ (runPatentSearchAgent env req).truth_scores.objective_truth = 0
        ∧ (runPatentSearchAgent env req).truth_scores.contextual_scope = 0
        ∧ ((runPatentSearchAgent env req).truth_scores.practical_truth = 0
           ∨ (runPatentSearchAgent env req).truth_scores.practical_truth = 1/5)) := by
  refine ⟨?_, ?_, ?_, ?_, ?_⟩
  · intro env req pre msg herr hres
    simp [runWebSearchAgent, herr, hres]
  · intro env req pre msg hres hana
    rcases hres2 : env.searchOutcome.results with _ | ⟨r, rs⟩
    · exact absurd hres2 hres
    · simp [runWebSearchAgent, hres2, hana]
  · intro env req hconf
    simp [runRetailSearchAgent, hconf]
  · intro env req hconf hsucc
    simp [runRetailSearchAgent, hconf, hsucc]
  · intro env req msg h
    cases hk : strIncludes msg "PATENTSVIEW_API_KEY" with
    | true =>
        rcases ha : env.analysisOutcome with msg2 | a
        · simp [runPatentSearchAgent, fetchPatents, h, hk, ha, zeroScores]
        · simp [runPatentSearchAgent, fetchPatents, h, hk, ha, mergeSort_nil]
    | false =>
        cases hkm : strIncludes ("PatentsView: " ++ msg) "PATENTSVIEW_API_KEY" with
        | true => simp [runPatentSearchAgent, fetchPatents, h, hk, hkm, zeroScores]
        | false =>
            cases hpe : (strIncludes ("PatentsView: " ++ msg) "500"
                || strIncludes ("PatentsView: " ++ msg) "Internal Server Error"
                || strIncludes ("PatentsView: " ++ msg) "400"
                || strIncludes ("PatentsView: " ++ msg) "error"
                || strIncludes ("PatentsView: " ++ msg) "failed") with
            | true => simp [runPatentSearchAgent, fetchPatents, h, hk, hkm, hpe]
            | false =>
                rcases ha : env.analysisOutcome with msg2 | a
                · simp [runPatentSearchAgent, fetchPatents, h, hk, hkm, hpe, ha, zeroScores]
                · simp [runPatentSearchAgent, fetchPatents, h, hk, hkm, hpe, ha, mergeSort_nil]

/-- Witness for C4 amended, at a failing web search and a failing
PatentsView search. -/
theorem agents_failure_sentinel_witness :
    (runWebSearchAgent
        { searchOutcome := { query := "q", results := [], error := some "boom" },
          analysisOutcome := .error "x" } c2Request none).truth_scores = zeroScores
    ∧ (runPatentSearchAgent
        { querySet := c2QuerySet,
          pvOutcome := .error "HTTP 503: Service Unavailable",
          analysisOutcome := .error "x" } c2Request).truth_scores.completeness = 0 := by
  constructor
  · exact (agents_failure_sentinel.1 _ c2Request none "boom" rfl rfl).2.1
  · exact (agents_failure_sentinel.2.2.2.2 _ c2Request "HTTP 503: Service Unavailable" rfl).2.1

/-! ## AI completion gateway (src/lib/ai/ai-client.ts)

The Anthropic and OpenAI SDK calls are external; their outcomes live in
AiEnv.  The non-text-content check of the source throws inside the same try
block as the SDK call, so it is folded into the primary outcome's error
case.  The trace records which providers were actually attempted. -/

/-- Lower-casing via the character map (the JavaScript toLowerCase of the
ASCII messages involved). -/
def jsToLower (s : String) : String :=
  String.mk (s.data.map Char.toLower)

/-- shouldFallback of src/lib/ai/ai-client.ts (lines 54-75): the
fallback-trigger classifier over the lower-cased error message. -/
def shouldFallback (errMsg : String) : Bool :=
  let message := jsToLower errMsg
  strIncludes message "credit" || strIncludes message "billing" || strIncludes message "balance"
  || strIncludes message "rate limit" || strIncludes message "429"
  || strIncludes message "overloaded" || strIncludes message "503" || strIncludes message "529"
  || (strIncludes message "invalid_request" && strIncludes message "400")

/-- MODEL_MAPPING of src/lib/ai/ai-client.ts (lines 8-13). -/
def MODEL_MAPPING (model : String) : Option String :=
  if model == "claude-3-haiku-20240307" then some "gpt-4o-mini"
  else if model == "claude-3-sonnet-20240229" then some "gpt-4o"
  else if model == "claude-3-opus-20240229" then some "gpt-4o"
  else if model == "claude-3-5-sonnet-20241022" then some "gpt-4o"
  else none

/-- CompletionResult of ai-client.ts. -/
structure CompletionResult where
  text : String
  provider : String
  model : String
  deriving Repr, DecidableEq

/-- Which provider calls a createCompletion run actually issued. -/
inductive AiEvent where
  | primaryCall (model : String)
  | secondaryCall (model : String)
  deriving Repr, DecidableEq

/-- Configuration and call outcomes of one createCompletion run.  The
openaiOutcome distinguishes a thrown SDK error (error), a response with no
message content (ok none, which the source turns into a thrown
No-response error), and a text response (ok some). -/
structure AiEnv where
  anthropicConfigured : Bool
  openaiConfigured : Bool
  anthropicOutcome : Except String String
  openaiOutcome : Except String (Option String)
  deriving Repr

/-- The fallback tail of createCompletion (ai-client.ts lines 133-170):
reached either after a classifier-matching primary failure or when the
primary provider is not configured. -/
def openaiFallback (env : AiEnv) (model : String) (trace : List AiEvent) :
    Except String CompletionResult × List AiEvent :=
  if !env.openaiConfigured then
    (.error "Both Anthropic and OpenAI are unavailable. Check API keys: ANTHROPIC_API_KEY and OPENAI_API_KEY",
      trace)
  else
    let openaiModel := (MODEL_MAPPING model).getD "gpt-4o-mini"
    match env.openaiOutcome with
    | .error e => (.error e, trace ++ [AiEvent.secondaryCall openaiModel])
    | .ok none => (.error "No response from OpenAI", trace ++ [AiEvent.secondaryCall openaiModel])
    | .ok (some text) =>
        (.ok { text := text, provider := "openai", model := openaiModel },
          trace ++ [AiEvent.secondaryCall openaiModel])

/-- createCompletion of src/lib/ai/ai-client.ts (lines 85-170). -/
def createCompletion (env : AiEnv) (model : String) :
    Except String CompletionResult × List AiEvent :=
  if env.anthropicConfigured then
    match env.anthropicOutcome with
    | .ok text =>
        (.ok { text := text, provider := "anthropic", model := model },
          [AiEvent.primaryCall model])
    | .error e =>
        if !shouldFallback e then (.error e, [AiEvent.primaryCall model])
        else openaiFallback env model [AiEvent.primaryCall model]
  else openaiFallback env model []

/-- Gateway environment with the primary configured, the secondary not, and
a classifier-matching primary failure. -/
def c5Env : AiEnv :=
  { anthropicConfigured := true, openaiConfigured := false,
    anthropicOutcome := .error "rate limit exceeded",
    openaiOutcome := .ok none }

/-- C5 as stated is false: with the primary provider configured but the
secondary not, a classifier-matching primary error makes createCompletion
raise the both-providers-unavailable configuration error without ever
attempting the secondary provider. -/
theorem gateway_fallback_counterexample :
    shouldFallback "rate limit exceeded" = true
    ∧ (createCompletion c5Env "claude-3-haiku-20240307").1 =
        .error "Both Anthropic and OpenAI are unavailable. Check API keys: ANTHROPIC_API_KEY and OPENAI_API_KEY"
    ∧ (createCompletion c5Env "claude-3-haiku-20240307").2 =
        [AiEvent.primaryCall "claude-3-haiku-20240307"] := by
  have hsf : shouldFallback "rate limit exceeded" = true := by rfl
  refine ⟨hsf, ?_, ?_⟩ <;>
    simp [createCompletion, openaiFallback, c5Env, hsf]

/-- C5 amended: if the primary provider is configured and fails with an
error matching the fallback classifier, and the secondary provider is also
configured, the gateway attempts the secondary provider with the mapped
model name (from the translation table, defaulting to gpt-4o-mini for
unmapped models) before any error is raised; on a non-matching error it
re-raises the primary error immediately without a secondary attempt; and
when neither provider is configured it fails with the configuration error
naming both missing credentials. -/
theorem gateway_fallback :
    (∀ (env : AiEnv) (model e : String),
      env.anthropicConfigured = true → env.anthropicOutcome = .error e →
      shouldFallback e = true → env.openaiConfigured = true →
        (createCompletion env model).2 =
          [AiEvent.primaryCall model,
           AiEvent.secondaryCall ((MODEL_MAPPING model).getD "gpt-4o-mini")]
        ∧ (∀ t, env.openaiOutcome = .ok (some t) →
            (createCompletion env model).1 =
              .ok { text := t, provider := "openai",
                    model := (MODEL_MAPPING model).getD "gpt-4o-mini" }))
    ∧ (∀ (env : AiEnv) (model e : String),
      env.anthropicConfigured = true → env.anthropicOutcome = .error e →
      shouldFallback e = false →
        (createCompletion env model).1 = .error e
        ∧ (createCompletion env model).2 = [AiEvent.primaryCall model])
    ∧ (∀ (env : AiEnv) (model : String),
      env.anthropicConfigured = false → env.openaiConfigured = false →
        (createCompletion env model).1 =
          .error "Both Anthropic and OpenAI are unavailable. Check API keys: ANTHROPIC_API_KEY and OPENAI_API_KEY"
        ∧ (createCompletion env model).2 = []) := by
  refine ⟨?_, ?_, ?_⟩
  · intro env model e ha herr hsf ho
    constructor
    · rcases hoo : env.openaiOutcome with e2 | t2
      · simp [createCompletion, openaiFallback, ha, herr, hsf, ho, hoo]
      · rcases t2 with _ | t3 <;>
          simp [createCompletion, openaiFallback, ha, herr, hsf, ho, hoo]
    · intro t hoo
      simp [createCompletion, openaiFallback, ha, herr, hsf, ho, hoo]
  · intro env model e ha herr hsf
    constructor <;> simp [createCompletion, ha, herr, hsf]
  · intro env model ha ho
    constructor <;> simp [createCompletion, openaiFallback, ha, ho]

/-- Witness for C5 amended: a rate-limited primary with a configured
secondary falls back to the mapped model, and a fully unconfigured gateway
raises the error naming both credentials. -/
theorem gateway_fallback_witness :
    (createCompletion
        { anthropicConfigured := true, openaiConfigured := true,
          anthropicOutcome := .error "rate limit exceeded",
          openaiOutcome := .ok (some "hello") } "claude-3-haiku-20240307").2 =
      [AiEvent.primaryCall "claude-3-haiku-20240307", AiEvent.secondaryCall "gpt-4o-mini"]
    ∧ (createCompletion
        { anthropicConfigured := false, openaiConfigured := false,
          anthropicOutcome := .error "x", openaiOutcome := .ok none } "claude-3-haiku-20240307").1 =
      .error "Both Anthropic and OpenAI are unavailable. Check API keys: ANTHROPIC_API_KEY and OPENAI_API_KEY" := by
  constructor
  · have hsf : shouldFallback "rate limit exceeded" = true := rfl
    have h := gateway_fallback.1
      { anthropicConfigured := true, openaiConfigured := true,
        anthropicOutcome := .error "rate limit exceeded",
        openaiOutcome := .ok (some "hello") }
      "claude-3-haiku-20240307" "rate limit exceeded" rfl rfl hsf rfl
    have h1 := h.1
    simpa [ MODEL_MAPPING] using h1
  · have h := gateway_fallback.2.2
      { anthropicConfigured := false, openaiConfigured := false,
        anthropicOutcome := .error "x", openaiOutcome := .ok none }
      "claude-3-haiku-20240307" rfl rfl
    exact h.1

/-! ## Query expander (src/lib/ai/expand-invention.ts)

The model call goes through the gateway; its outcome (after JSON
extraction) is an environment value: either a thrown error (model failure or
unparseable JSON) or a parsed object with every field optional, as the
duck-typed cast of the source admits. -/

/-- ExpandedInvention of expand-invention.ts. -/
structure ExpandedInvention where
  expanded_description : String
  key_features : List String
  product_category : String
  differentiators : List String
  web_queries : List String
  retail_queries : List String
  patent_queries : List String
  deriving Repr, DecidableEq

/-- The duck-typed parse of the model's JSON: every field may be absent. -/
structure ParsedExpansion where
  expanded_description : Option String := none
  key_features : Option (List String) := none
  product_category : Option String := none
  differentiators : Option (List String) := none
  web_queries : Option (List String) := none
  retail_queries : Option (List String) := none
  patent_queries : Option (List String) := none
  deriving Repr, DecidableEq

/-- JavaScript falsiness of an optional string: absent or empty. -/
def jsFalsyStr : Option String → Bool
  | none => true
  | some s => s == ""

/-- createFallbackExpansion of expand-invention.ts (lines 161-181). -/
def createFallbackExpansion (request : NoveltyCheckRequest) : ExpandedInvention :=
  let keywords :=
    ((alnumRuns request.description).filter (fun w => decide (3 < w.length))).take 5
  let basicQuery :=
    request.invention_name ++ " " ++ String.intercalate " " (keywords.take 3)
  { expanded_description := request.description
    key_features := request.key_features.getD []
    product_category := "General"
    differentiators := []
    web_queries := [basicQuery, request.invention_name]
    retail_queries := [request.invention_name, basicQuery]
    patent_queries := [request.invention_name] }

/-- expandInvention of expand-invention.ts (lines 104-156): validate the
parsed response (expanded_description truthy, key_features and web_queries
present), truncate the list fields, and fall back to the deterministic
expansion on any failure. -/
def expandInvention (request : NoveltyCheckRequest)
    (aiOutcome : Except String ParsedExpansion) : ExpandedInvention :=
  match aiOutcome with
  | .error _ => createFallbackExpansion request
  | .ok parsed =>
      if jsFalsyStr parsed.expanded_description || parsed.key_features.isNone
          || parsed.web_queries.isNone then
        createFallbackExpansion request
      else
        { expanded_description := parsed.expanded_description.getD ""
          key_features := (parsed.key_features.getD []).take 5
          product_category :=
            match parsed.product_category with
            | some c => if c == "" then "General" else c
            | none => "General"
          differentiators := parsed.differentiators.getD []
          web_queries := (parsed.web_queries.getD []).take 5
          retail_queries :=
            match parsed.retail_queries with
            | some l => l.take 5
            | none => (parsed.web_queries.getD []).take 3
          patent_queries :=
            match parsed.patent_queries with
            | some l => l.take 5
            | none => [] }

/-- A request with six key features. -/
def c6Request : NoveltyCheckRequest :=
  { invention_name := "Widget", description := "a thing that does widget things",
    key_features := some ["f1", "f2", "f3", "f4", "f5", "f6"] }

/-- C6 as stated is false: when the model call fails, the fallback expansion
passes the request's key_features through without truncation, so a request
with six key features yields key_features of length six. -/
theorem expand_caps_counterexample :
    (expandInvention c6Request (.error "model error")).key_features.length = 6
    ∧ ¬ (expandInvention c6Request (.error "model error")).key_features.length ≤ 5 := by
  constructor <;>
    simp [expandInvention, createFallbackExpansion, c6Request]

/-- C6 amended: expandInvention is total (never raises); on any model error
or failed validation (falsy expanded_description, absent key_features or
web_queries) it returns the deterministic fallback built from the raw
request fields; on the validated path key_features, web_queries,
retail_queries and patent_queries are each truncated to at most 5; on the
fallback path the three query lists have lengths 2, 2 and 1 but
key_features is the request's key_features list unchanged, and may
therefore exceed 5. -/
theorem expand_invention_caps :
    (∀ (req : NoveltyCheckRequest) (msg : String),
      expandInvention req (.error msg) = createFallbackExpansion req)
    ∧ (∀ (req : NoveltyCheckRequest) (p : ParsedExpansion),
      (jsFalsyStr p.expanded_description || p.key_features.isNone || p.web_queries.isNone) = true →
        expandInvention req (.ok p) = createFallbackExpansion req)
    ∧ (∀ (req : NoveltyCheckRequest) (p : ParsedExpansion),
      (jsFalsyStr p.expanded_description || p.key_features.isNone || p.web_queries.isNone) = false →
        (expandInvention req (.ok p)).key_features.length ≤ 5
        ∧ (expandInvention req (.ok p)).web_queries.length ≤ 5
        ∧ (expandInvention req (.ok p)).retail_queries.length ≤ 5
        ∧ (expandInvention req (.ok p)).patent_queries.length ≤ 5)
    ∧ (∀ (req : NoveltyCheckRequest),
      (createFallbackExpansion req).web_queries.length = 2
      ∧ (createFallbackExpansion req).retail_queries.length = 2
      ∧ (createFallbackExpansion req).patent_queries.length = 1
      ∧ (createFallbackExpansion req).key_features = req.key_features.getD []
      ∧ (createFallbackExpansion req).expanded_description = req.description) := by
  refine ⟨?_, ?_, ?_, ?_⟩
  · intro req msg
    rfl
  · intro req p h
    simp [expandInvention, h]
  · intro req p h
    refine ⟨?_, ?_, ?_, ?_⟩
    · simp [expandInvention, h]
    · simp [expandInvention, h]
    · simp only [expandInvention, h, Bool.false_eq_true, if_false]
      rcases p.retail_queries with _ | l
      · exact (List.length_take_le 3 _).trans (by norm_num)
      · exact List.length_take_le 5 _
    · simp only [expandInvention, h, Bool.false_eq_true, if_false]
      rcases p.patent_queries with _ | l
      · simp
      · exact List.length_take_le 5 _
  · intro req
    exact ⟨rfl, rfl, rfl, rfl, rfl⟩

/-- Witness for C6 amended: a validated parse with seven web queries is
capped at five, and a concrete fallback keeps the request description. -/
theorem expand_invention_caps_witness :
    (expandInvention c6Request
      (.ok { expanded_description := some "a widget",
             key_features := some ["a", "b", "c", "d", "e", "f"],
             web_queries := some ["q1", "q2", "q3", "q4", "q5", "q6", "q7"] })).web_queries.length ≤ 5
    ∧ expandInvention c6Request (.error "boom") = createFallbackExpansion c6Request := by
  constructor
  · exact (expand_invention_caps.2.2.1 c6Request
      { expanded_description := some "a widget",
        key_features := some ["a", "b", "c", "d", "e", "f"],
        web_queries := some ["q1", "q2", "q3", "q4", "q5", "q6", "q7"] } rfl).2.1
  · exact expand_invention_caps.1 c6Request "boom"

/-! ## Result cache, key derivation (src/lib/search-cache.ts, generateQueryHash)

JSON.stringify with a sorted key array as replacer serializes exactly the
listed keys, in the array's order; the embedding serializes flat string,
number and boolean values without escape processing (the query parameters of
the callers are plain ASCII).  The hash is the 32-bit signed
shift-and-subtract loop of the source, and the key is the search type, an
underscore, and the absolute hash value in base 36. -/

/-- JavaScript ToInt32: wrap an integer into [-2^31, 2^31). -/
def toInt32 (n : Int) : Int :=
  (n + 2 ^ 31) % 2 ^ 32 - 2 ^ 31

/-- One step of the hash loop: hash = ((hash << 5) - hash) + char, then
hash & hash (the int32 coercion). -/
def hashStep (h : Int) (c : Char) : Int :=
  toInt32 (toInt32 (h * 32) - h + (c.toNat : Int))

/-- The base-36 digit characters 0-9 then a-z. -/
def base36DigitChar (n : Nat) : Char :=
  if n < 10 then Char.ofNat (48 + n) else Char.ofNat (87 + n)

/-- Digits of a positive number in base 36, most significant first. -/
def natToBase36Aux : Nat → List Char → List Char
  | 0, acc => acc
  | n + 1, acc => natToBase36Aux ((n + 1) / 36) (base36DigitChar ((n + 1) % 36) :: acc)
decreasing_by exact Nat.div_lt_self (Nat.succ_pos n) (by norm_num)

/-- JavaScript Number.prototype.toString(36) for a nonnegative integer. -/
def natToBase36 (n : Nat) : String :=
  if n == 0 then "0" else String.mk (natToBase36Aux n [])

/-- A flat JSON value of the query parameters. -/
inductive JVal where
  | s (v : String)
  | n (v : Int)
  | b (v : Bool)
  deriving Repr, DecidableEq

/-- Serialization of one value (JSON.stringify on flat values). -/
def serJVal : JVal → String
  | .s v => "\"" ++ v ++ "\""
  | .n v => toString v
  | .b v => if v then "true" else "false"

/-- Query parameters as an ordered association list, the insertion-ordered
fields of a JavaScript object. -/
def QueryParams : Type := List (String × JVal)

/-- JSON.stringify(params, Object.keys(params).sort()): serialize the keys in
sorted order with their values. -/
def jsonStringifySorted (params : List (String × JVal)) : String :=
  "\x7b" ++ String.intercalate ","
    (((params.map Prod.fst).insertionSort (· ≤ ·)).map
      (fun k => "\"" ++ k ++ "\":" ++ ((params.lookup k).elim "null" serJVal)))
    ++ "\x7d"

/-- generateQueryHash of src/lib/search-cache.ts (lines 39-49). -/
def generateQueryHash (searchType : String) (params : List (String × JVal)) : String :=
  let normalized := jsonStringifySorted params
  let hash := normalized.data.foldl hashStep 0
  searchType ++ "_" ++ natToBase36 hash.natAbs

theorem lookup_mem_of_eq_some {p : List (String × JVal)} {k : String} {v : JVal}
    (h : p.lookup k = some v) : (k, v) ∈ p := by
  induction p with
  | nil => simp [List.lookup] at h
  | cons a t ih =>
      rcases a with ⟨ka, va⟩
      by_cases hk : k = ka
      · subst hk
        simp [List.lookup] at h
        simp [h]
      · simp [List.lookup, beq_false_of_ne hk] at h
        exact List.mem_cons_of_mem _ (ih h)

theorem lookup_eq_some_of_mem {p : List (String × JVal)} {k : String} {v : JVal}
    (hnd : (p.map Prod.fst).Nodup) (h : (k, v) ∈ p) : p.lookup k = some v := by
  induction p with
  | nil => cases h
  | cons a t ih =>
      rcases a with ⟨ka, va⟩
      have hnd' : ka ∉ t.map Prod.fst ∧ (t.map Prod.fst).Nodup := by
        rw [List.map_cons] at hnd
        exact List.nodup_cons.mp hnd
      rcases List.mem_cons.mp h with heq | hmem
      · cases heq
        simp [List.lookup]
      · have hk : k ≠ ka := by
          intro hkk
          subst hkk
          exact hnd'.1 (List.mem_map_of_mem Prod.fst hmem)
        simp [List.lookup, beq_false_of_ne hk]
        exact ih hnd'.2 hmem

theorem lookup_eq_none_iff {p : List (String × JVal)} {k : String} :
    p.lookup k = none ↔ k ∉ p.map Prod.fst := by
  induction p with
  | nil => simp [List.lookup]
  | cons a t ih =>
      rcases a with ⟨ka, va⟩
      by_cases hk : k = ka
      · subst hk
        simp [List.lookup]
      · simp [List.lookup, beq_false_of_ne hk, ih, hk]

theorem lookup_perm_eq (k : String) {p₁ p₂ : List (String × JVal)}
    (hperm : p₁.Perm p₂) (hnd : (p₁.map Prod.fst).Nodup) :
    p₁.lookup k = p₂.lookup k := by
  have hnd₂ : (p₂.map Prod.fst).Nodup := ((hperm.map Prod.fst).nodup hnd)
  rcases h1 : p₁.lookup k with _ | v
  · rcases h2 : p₂.lookup k with _ | w
    · rfl
    · have : (k, w) ∈ p₁ := hperm.symm.subset (lookup_mem_of_eq_some h2)
      rw [lookup_eq_some_of_mem hnd this] at h1
      cases h1
  · have : (k, v) ∈ p₂ := hperm.subset (lookup_mem_of_eq_some h1)
    rw [lookup_eq_some_of_mem hnd₂ this]

/-- C9: for every search type, query-parameter objects containing the same
key-value pairs in different insertion order produce identical cache keys:
the key is the search type prefixed to a non-cryptographic hash of the
serialization with keys sorted, so field order never affects it. -/
theorem query_hash_insertion_order_independent (t : String)
    (p₁ p₂ : List (String × JVal)) (hperm : p₁.Perm p₂)
    (hnd : (p₁.map Prod.fst).Nodup) :
    generateQueryHash t p₁ = generateQueryHash t p₂ := by
  have hkeys : (p₁.map Prod.fst).Perm (p₂.map Prod.fst) := hperm.map Prod.fst
  have hsorted : (p₁.map Prod.fst).insertionSort (· ≤ ·) =
      (p₂.map Prod.fst).insertionSort (· ≤ ·) := by
    apply List.eq_of_perm_of_sorted
      ((List.perm_insertionSort _ _).trans (hkeys.trans (List.perm_insertionSort _ _).symm))
      (List.sorted_insertionSort _ _) (List.sorted_insertionSort _ _)
  have hser : jsonStringifySorted p₁ = jsonStringifySorted p₂ := by
    have hmap : ((p₂.map Prod.fst).insertionSort (· ≤ ·)).map
        (fun k => "\"" ++ k ++ "\":" ++ ((p₁.lookup k).elim "null" serJVal)) =
        ((p₂.map Prod.fst).insertionSort (· ≤ ·)).map
        (fun k => "\"" ++ k ++ "\":" ++ ((p₂.lookup k).elim "null" serJVal)) := by
      apply List.map_congr_left
      intro k _
      rw [lookup_perm_eq k hperm hnd]
    unfold jsonStringifySorted
    rw [hsorted, hmap]
  unfold generateQueryHash
  rw [hser]

/-- Witness for C9: the two-field object written in both insertion orders. -/
theorem query_hash_insertion_order_independent_witness :
    generateQueryHash "web" [("a", JVal.n 1), ("b", JVal.n 2)] =
      generateQueryHash "web" [("b", JVal.n 2), ("a", JVal.n 1)] :=
  query_hash_insertion_order_independent "web" _ _
    (List.Perm.swap ("b", JVal.n 2) ("a", JVal.n 1) [])
    (by simp)

/-! ## Result cache, storage (src/lib/search-cache.ts)

The Supabase table search_cache is modelled as a list of rows plus a
fresh-id counter (the database generates ids and created_at defaults on
insert; an upsert on the query_hash conflict key updates the supplied
columns of the existing row, keeping its id and created_at).  Each database
operation that the source wraps in try/catch can fail; a write failure is a
Boolean of the environment, and the catch handler swallows it, leaving the
state unchanged. -/

/-- CachedSearchResult of src/lib/search-cache.ts; ids and timestamps are
numeric, and the raw results payload is opaque. -/
structure CacheRow where
  id : Nat
  query_hash : String
  search_type : String
  query_params : List (String × JVal)
  results : List String
  result_count : Nat
  source_api : String
  created_at : Nat
  expires_at : Option Nat
  deriving Repr, DecidableEq

/-- The search_cache table state. -/
structure CacheDb where
  rows : List CacheRow
  nextId : Nat
  deriving Repr, DecidableEq

/-- STORAGE_LIMITS of search-cache.ts: 1000 for web and retail; the patent
limit is Infinity and the enforcer is never invoked for patent. -/
def storageLimit (_searchType : String) : Nat := 1000

/-- Seven days in milliseconds (the web/retail expiry window). -/
def SEVEN_DAYS_MS : Nat := 7 * 24 * 60 * 60 * 1000

/-- Ascending order on created_at, the order clause of the enforcer. -/
def rowLe (a b : CacheRow) : Bool := decide (a.created_at ≤ b.created_at)

/-- Supabase .single(): a value only when exactly one row matches. -/
def singleRow {α : Type} : List α → Option α
  | [a] => some a
  | _ => none

/-- getCachedResults of search-cache.ts (lines 54-84): look the hash up,
lazily delete an expired row and report a miss, otherwise return the row. -/
def getCachedResults (db : CacheDb) (searchType : String)
    (queryParams : List (String × JVal)) (now : Nat) : Option CacheRow × CacheDb :=
  let queryHash := generateQueryHash searchType queryParams
  match singleRow (db.rows.filter
      (fun r => r.query_hash == queryHash && r.search_type == searchType)) with
  | none => (none, db)
  | some data =>
      match data.expires_at with
      | some e =>
          if e < now then
            (none, { db with rows := db.rows.filter (fun r => !(r.id == data.id)) })
          else (some data, db)
      | none => (some data, db)

/-- The column update an upsert applies to the conflicting row: every
SearchCacheInsert column (the hash is unchanged by value); id and
created_at are not in the payload and keep their old values. -/
def applyUpsertTo (r : CacheRow) (searchType : String)
    (queryParams : List (String × JVal)) (results : List String)
    (sourceApi : String) (expiresAt : Option Nat) : CacheRow :=
  { r with
      search_type := searchType
      query_params := queryParams
      results := results
      result_count := results.length
      source_api := sourceApi
      expires_at := expiresAt }

/-- The upsert of cacheSearchResults (onConflict query_hash): update the
existing row with that hash, or insert a fresh row with a new id and
created_at now. -/
def upsertRow (db : CacheDb) (queryHash searchType : String)
    (queryParams : List (String × JVal)) (results : List String)
    (sourceApi : String) (expiresAt : Option Nat) (now : Nat) : CacheDb :=
  if db.rows.any (fun r => r.query_hash == queryHash) then
    { db with rows := db.rows.map (fun r =>
        if r.query_hash == queryHash then
          applyUpsertTo r searchType queryParams results sourceApi expiresAt
        else r) }
  else
    { rows := db.rows ++
        [{ id := db.nextId, query_hash := queryHash, search_type := searchType,
           query_params := queryParams, results := results,
           result_count := results.length, source_api := sourceApi,
           created_at := now, expires_at := expiresAt }],
      nextId := db.nextId + 1 }

/-- enforceStorageLimit of search-cache.ts (lines 132-170): when the
retained count of the type exceeds its limit, delete the oldest rows by
created_at until the limit holds; its own catch swallows internal errors
(an erroring enforcement pass leaves the state unchanged, which the
count-within-limit branch already expresses). -/
def enforceStorageLimit (db : CacheDb) (searchType : String) : CacheDb :=
  let limit := storageLimit searchType
  let count := (db.rows.filter (fun r => r.search_type == searchType)).length
  if count ≤ limit then db
  else
    let toDelete := count - limit
    let sorted := (db.rows.filter (fun r => r.search_type == searchType)).mergeSort rowLe
    let idsToDelete := (sorted.take toDelete).map (fun r => r.id)
    { db with rows := db.rows.filter (fun r => !(idsToDelete.contains r.id)) }

/-- cacheSearchResults of search-cache.ts (lines 89-127): patent entries
never expire, web/retail entries get a 7-day expiry; upsert, then enforce
the storage limit for non-patent types; any write failure is swallowed. -/
def cacheSearchResults (db : CacheDb) (searchType : String)
    (queryParams : List (String × JVal)) (results : List String)
    (sourceApi : String) (now : Nat) (writeFails : Bool) : CacheDb :=
  if writeFails then db
  else
    let queryHash := generateQueryHash searchType queryParams
    let expiresAt := if searchType == "patent" then none else some (now + SEVEN_DAYS_MS)
    let db' := upsertRow db queryHash searchType queryParams results sourceApi expiresAt now
    if searchType != "patent" then enforceStorageLimit db' searchType else db'

/-! ### The eviction core of enforceStorageLimit -/

theorem rowLe_trans : ∀ (a b c : CacheRow),
    rowLe a b = true → rowLe b c = true → rowLe a c = true := by
  intro a b c hab hbc
  simp [rowLe] at *
  omega

theorem rowLe_total : ∀ (a b : CacheRow), (rowLe a b || rowLe b a) = true := by
  intro a b
  simp [rowLe]
  omega

/-- The rows the enforcer selects for deletion: the first m of the type's
rows in ascending created_at order. -/
def evictList (L : List CacheRow) (p : CacheRow → Bool) (m : Nat) : List CacheRow :=
  ((L.filter p).mergeSort rowLe).take m

theorem evict_core (L : List CacheRow) (p : CacheRow → Bool) (m : Nat)
    (Hi : (L.map (fun r => r.id)).Nodup) :
    ((L.filter (fun r => !((evictList L p m).map (fun r => r.id)).contains r.id)).filter p).length
        = (L.filter p).length - m
    ∧ (∀ r ∈ L, p r = false →
        r ∈ L.filter (fun r => !((evictList L p m).map (fun r => r.id)).contains r.id))
    ∧ (∀ r ∈ L, r ∉ L.filter (fun r => !((evictList L p m).map (fun r => r.id)).contains r.id) →
        p r = true ∧
        ∀ s ∈ L.filter (fun r => !((evictList L p m).map (fun r => r.id)).contains r.id),
          p s = true → r.created_at ≤ s.created_at) := by
  have hLnd : L.Nodup := List.Nodup.of_map _ Hi
  have htynd : (L.filter p).Nodup := List.Nodup.filter p hLnd
  have hperm : ((L.filter p).mergeSort rowLe).Perm (L.filter p) :=
    List.mergeSort_perm _ rowLe
  have hsortnd : ((L.filter p).mergeSort rowLe).Nodup := hperm.symm.nodup htynd
  have hsortPW : List.Pairwise (fun a b => rowLe a b = true) ((L.filter p).mergeSort rowLe) :=
    List.sorted_mergeSort rowLe_trans rowLe_total (L.filter p)
  have hsplit : evictList L p m ++ ((L.filter p).mergeSort rowLe).drop m
      = (L.filter p).mergeSort rowLe := List.take_append_drop m _
  have hdisj : (evictList L p m).Disjoint (((L.filter p).mergeSort rowLe).drop m) := by
    have := hsplit ▸ hsortnd
    exact (List.nodup_append.mp this).2.2
  have inj := List.inj_on_of_nodup_map Hi
  have hdeltyped : ∀ x ∈ evictList L p m, x ∈ L.filter p := by
    intro x hx
    exact hperm.subset (List.take_subset m _ hx)
  have hdelsub : ∀ x ∈ evictList L p m, x ∈ L := by
    intro x hx
    exact (List.filter_sublist L).subset (hdeltyped x hx)
  have hkeepsub : ∀ x ∈ ((L.filter p).mergeSort rowLe).drop m, x ∈ L := by
    intro x hx
    exact (List.filter_sublist L).subset (hperm.subset (List.drop_subset m _ hx))
  have hmem_ids : ∀ r ∈ L,
      (((evictList L p m).map (fun r => r.id)).contains r.id = true ↔ r ∈ evictList L p m) := by
    intro r hr
    constructor
    · intro hc
      have : r.id ∈ (evictList L p m).map (fun r => r.id) := by
        simpa [List.contains, List.elem_iff] using hc
      rcases List.mem_map.mp this with ⟨x, hxdel, hxid⟩
      have : x = r := inj (hdelsub x hxdel) hr hxid
      exact this ▸ hxdel
    · intro hd
      have : r.id ∈ (evictList L p m).map (fun r => r.id) := List.mem_map_of_mem _ hd
      simpa [List.contains, List.elem_iff] using this
  have hkeep_not : ∀ y ∈ ((L.filter p).mergeSort rowLe).drop m,
      ((evictList L p m).map (fun r => r.id)).contains y.id = false := by
    intro y hy
    cases hc : ((evictList L p m).map (fun r => r.id)).contains y.id with
    | false => rfl
    | true =>
        exfalso
        exact hdisj ((hmem_ids y (hkeepsub y hy)).mp hc) hy
  constructor
  · -- the retained count of p-rows is the old count minus m
    have h1 : (L.filter (fun r => !((evictList L p m).map (fun r => r.id)).contains r.id)).filter p
        = (L.filter p).filter (fun r => !((evictList L p m).map (fun r => r.id)).contains r.id) := by
      rw [List.filter_filter, List.filter_filter]
      apply List.filter_congr
      intro x _
      exact Bool.and_comm _ _
    have h2 : ((L.filter p).filter
          (fun r => !((evictList L p m).map (fun r => r.id)).contains r.id)).length
        = (((L.filter p).mergeSort rowLe).filter
          (fun r => !((evictList L p m).map (fun r => r.id)).contains r.id)).length :=
      ((hperm.filter _).symm).length_eq
    have h3 : ((L.filter p).mergeSort rowLe).filter
          (fun r => !((evictList L p m).map (fun r => r.id)).contains r.id)
        = ((L.filter p).mergeSort rowLe).drop m := by
      conv_lhs => rw [← hsplit]
      rw [List.filter_append]
      have hch1 : (evictList L p m).filter
          (fun r => !((evictList L p m).map (fun r => r.id)).contains r.id) = [] := by
        rw [List.filter_eq_nil_iff]
        intro a ha
        have hc := (hmem_ids a (hdelsub a ha)).mpr ha
        simp only [hc, Bool.not_true, Bool.false_eq_true, not_false_eq_true]
      have hch2 : (((L.filter p).mergeSort rowLe).drop m).filter
          (fun r => !((evictList L p m).map (fun r => r.id)).contains r.id)
          = ((L.filter p).mergeSort rowLe).drop m := by
        rw [List.filter_eq_self]
        intro a ha
        have hc := hkeep_not a ha
        simp only [hc, Bool.not_false]
      rw [hch1, hch2, List.nil_append]
    rw [h1, h2, h3, List.length_drop, hperm.length_eq]
  constructor
  · intro r hr hpr
    have hnd : r ∉ evictList L p m := by
      intro hmem
      have := List.mem_filter.mp (hdeltyped r hmem)
      rw [hpr] at this
      exact Bool.false_ne_true this.2
    have hc : ((evictList L p m).map (fun r => r.id)).contains r.id = false := by
      cases hc : ((evictList L p m).map (fun r => r.id)).contains r.id with
      | false => rfl
      | true => exact absurd ((hmem_ids r hr).mp hc) hnd
    exact List.mem_filter.mpr ⟨hr, by simp only [hc, Bool.not_false]⟩
  · intro r hr hnr
    have hq : ((evictList L p m).map (fun r => r.id)).contains r.id = true := by
      cases hc : ((evictList L p m).map (fun r => r.id)).contains r.id with
      | true => rfl
      | false =>
          exact absurd (List.mem_filter.mpr ⟨hr, by simp only [hc, Bool.not_false]⟩) hnr
    have hrdel : r ∈ evictList L p m := (hmem_ids r hr).mp hq
    refine ⟨(List.mem_filter.mp (hdeltyped r hrdel)).2, ?_⟩
    intro s hs hps
    have hsl := List.mem_filter.mp hs
    have hsnotdel : s ∉ evictList L p m := by
      intro hmem
      have hcon := (hmem_ids s hsl.1).mpr hmem
      rw [hcon] at hsl
      simp at hsl
    have hstyped : s ∈ L.filter p := List.mem_filter.mpr ⟨hsl.1, hps⟩
    have hssorted : s ∈ (L.filter p).mergeSort rowLe := hperm.symm.subset hstyped
    have hskeep : s ∈ ((L.filter p).mergeSort rowLe).drop m := by
      rcases List.mem_append.mp (hsplit ▸ hssorted) with h | h
      · exact absurd h hsnotdel
      · exact h
    have := (List.pairwise_append.mp (hsplit ▸ hsortPW)).2.2 r hrdel s hskeep
    simpa [rowLe] using this

/-- Specification of enforceStorageLimit above its limit: the retained count
of the enforced type drops to exactly the limit, rows of other types are
untouched, nothing new appears, and every deleted row is of the enforced
type and no newer (by created_at) than any surviving row of that type. -/
theorem enforce_spec (db : CacheDb) (t : String)
    (Hi : (db.rows.map (fun r => r.id)).Nodup)
    (hover : storageLimit t < (db.rows.filter (fun r => r.search_type == t)).length) :
    ((enforceStorageLimit db t).rows.filter (fun r => r.search_type == t)).length = storageLimit t
    ∧ (∀ r ∈ db.rows, (r.search_type == t) = false → r ∈ (enforceStorageLimit db t).rows)
    ∧ (∀ r ∈ (enforceStorageLimit db t).rows, r ∈ db.rows)
    ∧ (∀ r ∈ db.rows, r ∉ (enforceStorageLimit db t).rows →
        (r.search_type == t) = true ∧
        ∀ s ∈ (enforceStorageLimit db t).rows, (s.search_type == t) = true →
          r.created_at ≤ s.created_at) := by
  have hrows : (enforceStorageLimit db t).rows =
      db.rows.filter (fun r =>
        !((evictList db.rows (fun r => r.search_type == t)
            ((db.rows.filter (fun r => r.search_type == t)).length - storageLimit t)).map
          (fun r => r.id)).contains r.id) := by
    simp only [enforceStorageLimit, evictList]
    rw [if_neg (not_le.mpr hover)]
  have hc := evict_core db.rows (fun r => r.search_type == t)
      ((db.rows.filter (fun r => r.search_type == t)).length - storageLimit t) Hi
  rw [hrows]
  refine ⟨?_, hc.2.1, fun r hr => (List.filter_sublist _).subset hr, hc.2.2⟩
  rw [hc.1]
  omega

/-- C10: when the retained web-row count exceeds the limit of 1000 (as after
a cache write of a fresh web entry; cacheSearchResults invokes this enforcer
for every non-patent write), the enforcer deletes exactly the excess rows of
type web that are oldest by created_at: afterwards exactly 1000 web rows
remain, every deleted row is a web row no newer than any surviving web row,
and no patent or retail row is deleted or modified. -/
theorem storage_limit_eviction (db : CacheDb)
    (Hi : (db.rows.map (fun r => r.id)).Nodup)
    (hover : 1000 < (db.rows.filter (fun r => r.search_type == "web")).length) :
    ((enforceStorageLimit db "web").rows.filter (fun r => r.search_type == "web")).length = 1000
    ∧ (∀ r ∈ db.rows, r.search_type ≠ "web" → r ∈ (enforceStorageLimit db "web").rows)
    ∧ (∀ r ∈ (enforceStorageLimit db "web").rows, r ∈ db.rows)
    ∧ (∀ r ∈ db.rows, r ∉ (enforceStorageLimit db "web").rows →
        r.search_type = "web" ∧
        ∀ s ∈ (enforceStorageLimit db "web").rows, s.search_type = "web" →
          r.created_at ≤ s.created_at) := by
  have h := enforce_spec db "web" Hi (by simpa [storageLimit] using hover)
  refine ⟨by simpa [storageLimit] using h.1, ?_, h.2.2.1, ?_⟩
  · intro r hr hne
    exact h.2.1 r hr (beq_eq_false_iff_ne.mpr hne)
  · intro r hr hnr
    obtain ⟨h1, h2⟩ := h.2.2.2 r hr hnr
    refine ⟨by simpa using h1, ?_⟩
    intro s hs hst
    exact h2 s hs (by simpa using hst)

/-- A concrete web cache row for the eviction witness. -/
def wRow (i : Nat) : CacheRow :=
  { id := i, query_hash := "h" ++ toString i, search_type := "web", query_params := [],
    results := [], result_count := 0, source_api := "tavily", created_at := i,
    expires_at := none }

/-- A cache state holding 1001 web rows. -/
def wDb : CacheDb := { rows := (List.range 1001).map wRow, nextId := 1001 }

set_option maxRecDepth 8192 in
/-- Witness for C10: enforcing the limit on 1001 web rows retains exactly
1000. -/
theorem storage_limit_eviction_witness :
    ((enforceStorageLimit wDb "web").rows.filter
      (fun r => r.search_type == "web")).length = 1000 := by
  have hid : (wDb.rows.map (fun r => r.id)).Nodup := by
    simp only [wDb, List.map_map]
    have hf : ((fun r => r.id) ∘ wRow) = fun i => i := rfl
    rw [hf]
    simpa using List.nodup_range 1001
  have hcount : 1000 < (wDb.rows.filter (fun r => r.search_type == "web")).length := by
    have hall : ∀ r ∈ wDb.rows, (r.search_type == "web") = true := by
      intro r hr
      rcases List.mem_map.mp hr with ⟨i, _, rfl⟩
      rfl
    rw [List.filter_eq_self.mpr hall]
    simp [wDb]
  exact (storage_limit_eviction wDb hid hcount).1

/-- A list whose image under an injective-by-Nodup map is constant has at
most one element. -/
theorem length_le_one_of_forall_eq {α β : Type} {l : List α} {f : α → β} {c : β}
    (hnd : (l.map f).Nodup) (h : ∀ x ∈ l, f x = c) : l.length ≤ 1 := by
  match l with
  | [] => simp
  | [a] => simp
  | a :: b :: rest =>
      exfalso
      rw [List.map_cons, List.map_cons, List.nodup_cons] at hnd
      apply hnd.1
      rw [h a (by simp), h b (by simp)]
      simp

/-- What one upsert does to the table: exactly one row carries the written
hash afterwards, with the written columns; row ids stay duplicate-free; and
either the write was an in-place update (the per-type row counts do not
grow) or it appended a fresh row created now, all other rows being old. -/
theorem upsertRow_spec (db : CacheDb) (hq t : String) (params : List (String × JVal))
    (results : List String) (api : String) (E : Option Nat) (now : Nat)
    (Hh : (db.rows.map (fun r => r.query_hash)).Nodup)
    (Hi : (db.rows.map (fun r => r.id)).Nodup)
    (Hfresh : ∀ r ∈ db.rows, r.id < db.nextId)
    (Htype : ∀ r ∈ db.rows, r.query_hash = hq → r.search_type = t) :
    ∃ w, (upsertRow db hq t params results api E now).rows.filter
            (fun r => r.query_hash == hq) = [w]
      ∧ w.search_type = t ∧ w.results = results ∧ w.expires_at = E
      ∧ ((upsertRow db hq t params results api E now).rows.map (fun r => r.id)).Nodup
      ∧ (((upsertRow db hq t params results api E now).rows.filter
            (fun r => r.search_type == t)).length
          ≤ (db.rows.filter (fun r => r.search_type == t)).length
        ∨ (w.created_at = now
           ∧ ∀ r ∈ (upsertRow db hq t params results api E now).rows, r ≠ w → r ∈ db.rows)) := by
  cases hex : db.rows.any (fun r => r.query_hash == hq) with
  | true =>
      obtain ⟨r₀, hr₀mem, hr₀hash⟩ := List.any_eq_true.mp hex
      have hrows : (upsertRow db hq t params results api E now).rows =
          db.rows.map (fun r =>
            if r.query_hash == hq then applyUpsertTo r t params results api E else r) := by
        simp only [upsertRow, hex, if_true]
      have hfl : db.rows.filter (fun r => r.query_hash == hq) = [r₀] := by
        have hle : (db.rows.filter (fun r => r.query_hash == hq)).length ≤ 1 := by
          apply length_le_one_of_forall_eq
            (List.Nodup.sublist ((List.filter_sublist _).map _) Hh)
          intro x hx
          exact beq_iff_eq.mp (List.mem_filter.mp hx).2
        have hmem : r₀ ∈ db.rows.filter (fun r => r.query_hash == hq) :=
          List.mem_filter.mpr ⟨hr₀mem, hr₀hash⟩
        have hlen1 : (db.rows.filter (fun r => r.query_hash == hq)).length = 1 := by
          have : 0 < (db.rows.filter (fun r => r.query_hash == hq)).length :=
            List.length_pos.mpr (fun hnil => by simp [hnil] at hmem)
          omega
        obtain ⟨a, ha⟩ := List.length_eq_one.mp hlen1
        rw [ha] at hmem
        rw [ha, List.mem_singleton.mp hmem]
      have hgf : ∀ r ∈ db.rows,
          ((fun r => r.query_hash == hq) ∘ (fun r =>
            if r.query_hash == hq then applyUpsertTo r t params results api E else r)) r
          = (r.query_hash == hq) := by
        intro r _
        simp only [Function.comp]
        by_cases hcr : (r.query_hash == hq) = true
        · rw [if_pos hcr]
          rfl
        · rw [if_neg hcr]
      refine ⟨applyUpsertTo r₀ t params results api E, ?_, rfl, rfl, rfl, ?_, ?_⟩
      · rw [hrows, List.filter_map, List.filter_congr hgf, hfl]
        simp only [List.map_cons, List.map_nil]
        rw [if_pos hr₀hash]
      · rw [hrows, List.map_map]
        have hfe : ((fun r => r.id) ∘ (fun r =>
            if r.query_hash == hq then applyUpsertTo r t params results api E else r))
            = fun r => r.id := by
          funext r
          simp only [Function.comp]
          by_cases hcr : (r.query_hash == hq) = true
          · rw [if_pos hcr]
            rfl
          · rw [if_neg hcr]
        rw [hfe]
        exact Hi
      · left
        rw [hrows, List.filter_map, List.length_map]
        have hty : ∀ r ∈ db.rows,
            ((fun r => r.search_type == t) ∘ (fun r =>
              if r.query_hash == hq then applyUpsertTo r t params results api E else r)) r
            = (r.search_type == t) := by
          intro r hr
          simp only [Function.comp]
          by_cases hcr : (r.query_hash == hq) = true
          · have ht := Htype r hr (beq_iff_eq.mp hcr)
            rw [if_pos hcr]
            show (t == t) = (r.search_type == t)
            rw [ht]
          · rw [if_neg hcr]
        rw [List.filter_congr hty]
  | false =>
      have hnone : ∀ r ∈ db.rows, (r.query_hash == hq) = false := by
        intro r hr
        have := List.any_eq_false.mp hex r hr
        cases hb : (r.query_hash == hq) with
        | false => rfl
        | true => exact absurd hb this
      have hrows : (upsertRow db hq t params results api E now).rows =
          db.rows ++
            [{ id := db.nextId, query_hash := hq, search_type := t,
               query_params := params, results := results,
               result_count := results.length, source_api := api,
               created_at := now, expires_at := E }] := by
        simp only [upsertRow, hex]
        rfl
      refine ⟨{ id := db.nextId, query_hash := hq, search_type := t, query_params := params,
                results := results, result_count := results.length, source_api := api,
                created_at := now, expires_at := E }, ?_, rfl, rfl, rfl, ?_, ?_⟩
      · rw [hrows, List.filter_append]
        have h1 : db.rows.filter (fun r => r.query_hash == hq) = [] :=
          List.filter_eq_nil_iff.mpr (fun a ha => by simp [hnone a ha])
        rw [h1]
        simp
      · rw [hrows, List.map_append, List.nodup_append]
        refine ⟨Hi, by simp, ?_⟩
        intro a ha
        rcases List.mem_map.mp ha with ⟨r, hr, rfl⟩
        have := Hfresh r hr
        simp only [List.map_cons, List.map_nil, List.mem_singleton]
        omega
      · right
        refine ⟨rfl, ?_⟩
        intro r hr hne
        rw [hrows] at hr
        rcases List.mem_append.mp hr with h | h
        · exact h
        · exact absurd (List.mem_singleton.mp h) hne

/-- The enforcer keeps a given row whenever the type is within its limit or
the row is strictly the newest: the result is always a filtration of the
input that retains the row. -/
theorem enforce_keeps (db : CacheDb) (t : String) (w : CacheRow)
    (Hi : (db.rows.map (fun r => r.id)).Nodup) (hw : w ∈ db.rows)
    (hcase : (db.rows.filter (fun r => r.search_type == t)).length ≤ storageLimit t
      ∨ ∀ r ∈ db.rows, r ≠ w → r.created_at < w.created_at) :
    ∃ q : CacheRow → Bool,
      (enforceStorageLimit db t).rows = db.rows.filter q ∧ q w = true := by
  by_cases hcnt : (db.rows.filter (fun r => r.search_type == t)).length ≤ storageLimit t
  · refine ⟨fun _ => true, ?_, rfl⟩
    rw [List.filter_true]
    simp only [enforceStorageLimit]
    rw [if_pos hcnt]
  · have hover : storageLimit t < (db.rows.filter (fun r => r.search_type == t)).length :=
      not_le.mp hcnt
    rcases hcase with hc | hnew
    · exact absurd hc hcnt
    have hrows : (enforceStorageLimit db t).rows =
        db.rows.filter (fun r =>
          !((evictList db.rows (fun r => r.search_type == t)
              ((db.rows.filter (fun r => r.search_type == t)).length - storageLimit t)).map
            (fun r => r.id)).contains r.id) := by
      simp only [enforceStorageLimit, evictList]
      rw [if_neg hcnt]
    have hspec := enforce_spec db t Hi hover
    have hw_in : w ∈ (enforceStorageLimit db t).rows := by
      by_contra hnot
      obtain ⟨_, hold⟩ := hspec.2.2.2 w hw hnot
      have hpos : 0 < ((enforceStorageLimit db t).rows.filter
          (fun r => r.search_type == t)).length := by
        rw [hspec.1]
        simp [storageLimit]
      obtain ⟨s, hs⟩ := List.exists_mem_of_ne_nil _ (List.length_pos.mp hpos)
      have hsmem := List.mem_filter.mp hs
      have hle := hold s hsmem.1 hsmem.2
      have hsdb : s ∈ db.rows := hspec.2.2.1 s hsmem.1
      have hsne : s ≠ w := by
        intro hsw
        exact hnot (hsw ▸ hsmem.1)
      have := hnew s hsdb hsne
      omega
    refine ⟨_, hrows, ?_⟩
    have := List.mem_filter.mp (hrows ▸ hw_in)
    exact this.2

/-- Restricting a hash-singleton filtration by the search type keeps the row
when its type matches. -/
theorem filter_conj_of_filter_hash {L : List CacheRow} {hq t : String} {w : CacheRow}
    (hfl : L.filter (fun r => r.query_hash == hq) = [w]) (hwt : w.search_type = t) :
    L.filter (fun r => r.query_hash == hq && r.search_type == t) = [w] := by
  have h1 : L.filter (fun r => r.query_hash == hq && r.search_type == t)
      = (L.filter (fun r => r.query_hash == hq)).filter (fun r => r.search_type == t) := by
    rw [List.filter_filter]
    apply List.filter_congr
    intro x _
    exact Bool.and_comm _ _
  rw [h1, hfl]
  simp [hwt]

/-- A singleton filtration survives a further filtration that keeps the
row. -/
theorem filter_comm_single {L : List CacheRow} {conj q : CacheRow → Bool} {w : CacheRow}
    (hfilt : L.filter conj = [w]) (hqw : q w = true) :
    (L.filter q).filter conj = [w] := by
  rw [List.filter_filter]
  have hcomm : L.filter (fun a => conj a && q a) = L.filter (fun a => q a && conj a) :=
    List.filter_congr (fun x _ => Bool.and_comm _ _)
  rw [hcomm, ← List.filter_filter, hfilt]
  simp [hqw]

/-- C8: cache round-trip and expiry.  In any well-formed reachable cache
state (duplicate-free hashes and ids, ids below the id counter, rows created
strictly before now, the written type within its storage limit, and
hash-type consistency), a cacheSearchResults write stores exactly one row
under the derived key, holding the written results; a patent row carries no
expiry and is returned by getCachedResults at every later time; a web or
retail row carries expires_at seven days ahead, is returned by reads up to
that moment, and a read strictly after it deletes the row and reports a
miss; and a failing write is swallowed, leaving the state unchanged. -/
theorem cache_roundtrip_and_expiry
    (db : CacheDb) (t : String) (params : List (String × JVal))
    (results : List String) (api : String) (now : Nat)
    (Hh : (db.rows.map (fun r => r.query_hash)).Nodup)
    (Hi : (db.rows.map (fun r => r.id)).Nodup)
    (Hfresh : ∀ r ∈ db.rows, r.id < db.nextId)
    (Htime : ∀ r ∈ db.rows, r.created_at < now)
    (Hcount : (db.rows.filter (fun r => r.search_type == t)).length ≤ 1000)
    (Htype : ∀ r ∈ db.rows, r.query_hash = generateQueryHash t params → r.search_type = t) :
    (∃ w : CacheRow,
      (cacheSearchResults db t params results api now false).rows.filter
          (fun r => r.query_hash == generateQueryHash t params && r.search_type == t) = [w]
      ∧ w.results = results
      ∧ w.expires_at = (if t == "patent" then none else some (now + SEVEN_DAYS_MS))
      ∧ (t = "patent" → ∀ later : Nat,
          getCachedResults (cacheSearchResults db t params results api now false) t params later
            = (some w, cacheSearchResults db t params results api now false))
      ∧ (t ≠ "patent" → ∀ later : Nat, later ≤ now + SEVEN_DAYS_MS →
          getCachedResults (cacheSearchResults db t params results api now false) t params later
            = (some w, cacheSearchResults db t params results api now false))
      ∧ (t ≠ "patent" → ∀ later : Nat, now + SEVEN_DAYS_MS < later →
          (getCachedResults (cacheSearchResults db t params results api now false) t params later).1
            = none
          ∧ w ∉ (getCachedResults (cacheSearchResults db t params results api now false)
              t params later).2.rows))
    ∧ cacheSearchResults db t params results api now true = db := by
  refine ⟨?_, rfl⟩
  by_cases hpat : t = "patent"
  · subst hpat
    obtain ⟨w, hfilt, hwt, hwr, hwe, hnd2, hcd⟩ :=
      upsertRow_spec db (generateQueryHash "patent" params) "patent" params results api
        none now Hh Hi Hfresh Htype
    have hdb1 : cacheSearchResults db "patent" params results api now false =
        upsertRow db (generateQueryHash "patent" params) "patent" params results api
          none now := by
      rfl
    have hfc := filter_conj_of_filter_hash hfilt hwt
    refine ⟨w, ?_, hwr, ?_, ?_, ?_, ?_⟩
    · rw [hdb1]
      exact hfc
    · rw [hwe]
      rfl
    · intro _ later
      rw [hdb1]
      simp only [getCachedResults, hfc, singleRow, hwe]
    · intro hne
      exact absurd rfl hne
    · intro hne
      exact absurd rfl hne
  · have hbeq : (t == "patent") = false := beq_eq_false_iff_ne.mpr hpat
    obtain ⟨w, hfilt, hwt, hwr, hwe, hnd2, hcd⟩ :=
      upsertRow_spec db (generateQueryHash t params) t params results api
        (some (now + SEVEN_DAYS_MS)) now Hh Hi Hfresh Htype
    have hdb1 : cacheSearchResults db t params results api now false =
        enforceStorageLimit
          (upsertRow db (generateQueryHash t params) t params results api
            (some (now + SEVEN_DAYS_MS)) now) t := by
      simp only [cacheSearchResults, bne, hbeq, Bool.not_false, if_true,
        Bool.false_eq_true, if_false]
    have hwmem : w ∈ (upsertRow db (generateQueryHash t params) t params results api
        (some (now + SEVEN_DAYS_MS)) now).rows := by
      have hmem : w ∈ (upsertRow db (generateQueryHash t params) t params results api
          (some (now + SEVEN_DAYS_MS)) now).rows.filter
            (fun r => r.query_hash == generateQueryHash t params) := by
        rw [hfilt]
        simp
      exact (List.mem_filter.mp hmem).1
    have hcase : ((upsertRow db (generateQueryHash t params) t params results api
          (some (now + SEVEN_DAYS_MS)) now).rows.filter
            (fun r => r.search_type == t)).length ≤ storageLimit t
        ∨ ∀ r ∈ (upsertRow db (generateQueryHash t params) t params results api
            (some (now + SEVEN_DAYS_MS)) now).rows, r ≠ w → r.created_at < w.created_at := by
      rcases hcd with hle | ⟨hwc, hothers⟩
      · left
        simp only [storageLimit]
        omega
      · right
        intro r hr hne
        rw [hwc]
        exact Htime r (hothers r hr hne)
    obtain ⟨q, hq, hqw⟩ := enforce_keeps _ t w hnd2 hwmem hcase
    have hfc : (enforceStorageLimit
          (upsertRow db (generateQueryHash t params) t params results api
            (some (now + SEVEN_DAYS_MS)) now) t).rows.filter
        (fun r => r.query_hash == generateQueryHash t params && r.search_type == t) = [w] := by
      rw [hq]
      exact filter_comm_single (filter_conj_of_filter_hash hfilt hwt) hqw
    refine ⟨w, ?_, hwr, ?_, ?_, ?_, ?_⟩
    · rw [hdb1]
      exact hfc
    · rw [hwe, hbeq]
      rfl
    · intro hpt
      exact absurd hpt hpat
    · intro _ later hlater
      rw [hdb1]
      have hnl : ¬ (now + SEVEN_DAYS_MS < later) := not_lt.mpr hlater
      simp only [getCachedResults, hfc, singleRow, hwe]
      rw [if_neg hnl]
    · intro _ later hlater
      rw [hdb1]
      constructor
      · simp only [getCachedResults, hfc, singleRow, hwe]
        rw [if_pos hlater]
      · simp only [getCachedResults, hfc, singleRow, hwe]
        rw [if_pos hlater]
        intro hmem
        have := List.mem_filter.mp hmem
        simp at this

/-- The empty cache state. -/
def emptyCacheDb : CacheDb := { rows := [], nextId := 0 }

/-- Witness for C8: on the empty cache, a web write at time 0 is readable at
the seven-day boundary, gone strictly after it, and a failing patent write
leaves the state unchanged. -/
theorem cache_roundtrip_and_expiry_witness :
    (getCachedResults
        (cacheSearchResults emptyCacheDb "web" [("q", JVal.s "solar charger")] ["r1"]
          "tavily" 0 false)
        "web" [("q", JVal.s "solar charger")] SEVEN_DAYS_MS).1.isSome = true
    ∧ (getCachedResults
        (cacheSearchResults emptyCacheDb "web" [("q", JVal.s "solar charger")] ["r1"]
          "tavily" 0 false)
        "web" [("q", JVal.s "solar charger")] (SEVEN_DAYS_MS + 1)).1 = none
    ∧ cacheSearchResults emptyCacheDb "patent" [] [] "pv" 5 true = emptyCacheDb := by
  obtain ⟨⟨w, hfilt, hwr, hwe, hpat, hhit, hmiss⟩, hswallow⟩ :=
    cache_roundtrip_and_expiry emptyCacheDb "web" [("q", JVal.s "solar charger")] ["r1"]
      "tavily" 0
      (by simp [emptyCacheDb]) (by simp [emptyCacheDb]) (by simp [emptyCacheDb])
      (by simp [emptyCacheDb]) (by simp [emptyCacheDb]) (by simp [emptyCacheDb])
  refine ⟨?_, ?_, ?_⟩
  · rw [hhit (by decide) SEVEN_DAYS_MS (by omega)]
    rfl
  · exact (hmiss (by decide) (SEVEN_DAYS_MS + 1) (by omega)).1
  · exact (cache_roundtrip_and_expiry emptyCacheDb "patent" [] [] "pv" 5
      (by simp [emptyCacheDb]) (by simp [emptyCacheDb]) (by simp [emptyCacheDb])
      (by simp [emptyCacheDb]) (by simp [emptyCacheDb]) (by simp [emptyCacheDb])).2

/-! ## Channel search clients and the cache (claim about call ordering)

The Tavily and Brave clients (src/lib/search/tavily.ts lines 61-184 and
src/lib/search/brave.ts lines 50-158) are embedded with an explicit event
trace: the single fetch each issues, plus cache-read and cache-write events
that would mark any use of getCachedResults or cacheSearchResults.  Neither
client body contains a call into the cache module, so no cache event is
ever emitted. -/

/-- Observable client activity: a cache read, a cache write, or an external
API request. -/
inductive ClientEvent where
  | cacheRead (searchType : String)
  | cacheWrite (searchType : String)
  | apiRequest (api query : String)
  deriving Repr, DecidableEq

/-- A cache access of either kind. -/
def isCacheEvent : ClientEvent → Bool
  | .cacheRead _ => true
  | .cacheWrite _ => true
  | .apiRequest _ _ => false

/-- An external API request. -/
def isApiRequest : ClientEvent → Bool
  | .apiRequest _ _ => true
  | _ => false

/-- Scans a trace checking that some cache read occurs before every
external API request. -/
def readPrecedesAux (seenRead : Bool) : List ClientEvent → Bool
  | [] => true
  | .cacheRead _ :: rest => readPrecedesAux true rest
  | .cacheWrite _ :: rest => readPrecedesAux seenRead rest
  | .apiRequest _ _ :: rest => seenRead && readPrecedesAux seenRead rest

/-- Every external API request in the trace is preceded by a cache read. -/
def readPrecedesEveryCall (tr : List ClientEvent) : Bool :=
  readPrecedesAux false tr

/-- One raw web result of the Brave API response. -/
structure BraveAPIWebResult where
  title : String
  description : String
  url : String
  age : Option String := none
  language : Option String := none
  family_friendly : Option Bool := none
  extra_snippets : List String := []
  deriving Repr, DecidableEq

/-- The HTTP response of one Brave fetch. -/
structure BraveHttp where
  ok : Bool
  status : Nat
  body : String
  queryOriginal : Option String := none
  webResults : List BraveAPIWebResult := []
  deriving Repr, DecidableEq

/-- Environment of one braveSearch call: key presence and the fetch
outcome (a thrown network error or a response). -/
structure BraveEnv where
  apiKeyPresent : Bool
  apiKeyLength : Nat := 0
  http : Except String BraveHttp
  deriving Repr

/-- BraveSearchResult of src/lib/search/brave.ts. -/
structure BraveSearchResult where
  title : String
  description : String
  url : String
  age : Option String := none
  language : Option String := none
  family_friendly : Option Bool := none
  deriving Repr, DecidableEq

/-- BraveSearchResponse of src/lib/search/brave.ts. -/
structure BraveSearchResponse where
  query : String
  results : List BraveSearchResult
  total_results : Option Nat := none
  error : Option String := none
  deriving Repr, DecidableEq

/-- The response processing of braveSearch after its single fetch. -/
def braveSearchBody (env : BraveEnv) (query : String) : BraveSearchResponse :=
  match env.http with
  | .error msg =>
      { query := query, results := [],
        error := some ("Failed to fetch search results: " ++ msg) }
  | .ok resp =>
      if !resp.ok then
        if resp.status == 401 then
          { query := query, results := [],
            error := some ("Invalid Brave API key (401). Key length: " ++
              toString env.apiKeyLength ++ ". Response: " ++
              String.mk (resp.body.data.take 200)) }
        else if resp.status == 429 then
          { query := query, results := [],
            error := some ("Brave API rate limit exceeded (429). Response: " ++
              String.mk (resp.body.data.take 200)) }
        else
          { query := query, results := [],
            error := some ("Brave API error (" ++ toString resp.status ++ "): " ++
              String.mk (resp.body.data.take 200)) }
      else
        { query := (if (resp.queryOriginal.getD "") == "" then query
                    else resp.queryOriginal.getD "")
          results := resp.webResults.map (fun r =>
            { title := r.title
              description := if r.description == "" then r.extra_snippets.headD ""
                             else r.description
              url := r.url, age := r.age, language := r.language,
              family_friendly := r.family_friendly })
          total_results := some resp.webResults.length }

/-- braveSearch of src/lib/search/brave.ts (lines 50-158), with its event
trace: without a key it returns the not-configured error and issues
nothing; otherwise it issues exactly one external request and never touches
the cache. -/
def braveSearch (env : BraveEnv) (query : String) (_count : Nat) :
    BraveSearchResponse × List ClientEvent :=
  if !env.apiKeyPresent then
    ({ query := query, results := [],
       error := some "BRAVE_API_KEY environment variable is not set" }, [])
  else
    (braveSearchBody env query, [ClientEvent.apiRequest "brave" query])

/-- One raw result of the Tavily API response. -/
structure TavilyAPIResult where
  title : String
  url : String
  content : String
  score : ℚ
  published_date : Option String := none
  deriving Repr, DecidableEq

/-- The HTTP response of one Tavily fetch. -/
structure TavilyHttp where
  ok : Bool
  status : Nat
  body : String
  queryEcho : Option String := none
  results : List TavilyAPIResult := []
  deriving Repr, DecidableEq

/-- Environment of one tavilySearch call. -/
structure TavilyEnv where
  apiKeyPresent : Bool
  http : Except String TavilyHttp
  deriving Repr

/-- MIN_RELEVANCE_SCORE of tavily.ts. -/
def MIN_RELEVANCE_SCORE : ℚ := 1/2

/-- The response processing of tavilySearch after its single fetch:
status-specific errors, or the results filtered by the relevance
threshold. -/
def tavilySearchBody (env : TavilyEnv) (query : String) : TavilyMultiResponse :=
  match env.http with
  | .error msg =>
      { query := query, results := [],
        error := some ("Failed to fetch search results: " ++ msg) }
  | .ok resp =>
      if !resp.ok then
        if resp.status == 401 then
          { query := query, results := [],
            error := some ("Invalid Tavily API key (401). Response: " ++
              String.mk (resp.body.data.take 200)) }
        else if resp.status == 429 then
          { query := query, results := [],
            error := some ("Tavily API rate limit exceeded (429). Response: " ++
              String.mk (resp.body.data.take 200)) }
        else
          { query := query, results := [],
            error := some ("Tavily API error (" ++ toString resp.status ++ "): " ++
              String.mk (resp.body.data.take 200)) }
      else
        let results := (resp.results.filter
            (fun r => decide (MIN_RELEVANCE_SCORE ≤ r.score))).map (fun r =>
          { title := r.title, description := r.content, url := r.url,
            score := r.score, age := r.published_date : TavilySearchResult })
        { query := (if (resp.queryEcho.getD "") == "" then query
                    else resp.queryEcho.getD "")
          results := results
          total_results := some results.length }

/-- tavilySearch of src/lib/search/tavily.ts (lines 61-184), with its event
trace.  The request-shaping options (maxResults cap, search depth, domain
lists) only affect the outgoing request body, which the embedding leaves
abstract. -/
def tavilySearch (env : TavilyEnv) (query : String) (_maxResults : Nat) :
    TavilyMultiResponse × List ClientEvent :=
  if !env.apiKeyPresent then
    ({ query := query, results := [],
       error := some "TAVILY_API_KEY environment variable is not set" }, [])
  else
    (tavilySearchBody env query, [ClientEvent.apiRequest "tavily" query])

/-- A configured Brave client whose request succeeds. -/
def c7BraveEnv : BraveEnv :=
  { apiKeyPresent := true, apiKeyLength := 32,
    http := .ok { ok := true, status := 200, body := "",
                  queryOriginal := some "solar charger", webResults := [] } }

/-- C7 as stated is false: a configured braveSearch call issues its external
API request as the very first event, with no preceding cache read and no
cache write afterwards. -/
theorem client_cache_consult_counterexample :
    (braveSearch c7BraveEnv "solar charger" 10).2 =
      [ClientEvent.apiRequest "brave" "solar charger"]
    ∧ ((braveSearch c7BraveEnv "solar charger" 10).2.any isApiRequest) = true
    ∧ readPrecedesEveryCall (braveSearch c7BraveEnv "solar charger" 10).2 = false := by
  refine ⟨rfl, rfl, rfl⟩

/-- C7 amended: the channel search clients never consult the result cache
at all: a braveSearch or tavilySearch call emits no cache read or write,
and with a configured key its only event is the single external API
request (so no external call is preceded by a cache read, and no cache
write follows a successful call). -/
theorem clients_never_consult_cache :
    (∀ (env : BraveEnv) (query : String) (count : Nat),
      ((braveSearch env query count).2.all (fun e => !isCacheEvent e)) = true)
    ∧ (∀ (env : TavilyEnv) (query : String) (maxResults : Nat),
      ((tavilySearch env query maxResults).2.all (fun e => !isCacheEvent e)) = true)
    ∧ (∀ (env : BraveEnv) (query : String) (count : Nat),
      env.apiKeyPresent = true →
        (braveSearch env query count).2 = [ClientEvent.apiRequest "brave" query])
    ∧ (∀ (env : TavilyEnv) (query : String) (maxResults : Nat),
      env.apiKeyPresent = true →
        (tavilySearch env query maxResults).2 = [ClientEvent.apiRequest "tavily" query]) := by
  refine ⟨?_, ?_, ?_, ?_⟩
  · intro env query count
    cases hk : env.apiKeyPresent <;> simp [braveSearch, hk, isCacheEvent]
  · intro env query maxResults
    cases hk : env.apiKeyPresent <;> simp [tavilySearch, hk, isCacheEvent]
  · intro env query count hk
    simp [braveSearch, hk]
  · intro env query maxResults hk
    simp [tavilySearch, hk]

/-- Witness for C7 amended, at the configured Brave environment. -/
theorem clients_never_consult_cache_witness :
    (braveSearch c7BraveEnv "solar charger" 10).2 =
      [ClientEvent.apiRequest "brave" "solar charger"] :=
  clients_never_consult_cache.2.2.1 c7BraveEnv "solar charger" 10 rfl
